import Mathlib

/-!
Verification development for the behaviour-monitor integration.

This file gives a shallow embedding, in Lean 4, of the pattern-learning and
anomaly-detection core of the `behaviour_monitor` integration
(`analyzer.py`, `ml_analyzer.py`, `coordinator.py`), and proves or refutes
the frozen claims about it.

Modelling conventions:
* Python floats are modelled as `ℚ` (exact arithmetic; the code never relies
  on float rounding, and the spec says round-trips are exact up to
  floating-point tolerance).
* `datetime` values are modelled as `Timestamp := ℤ`, seconds since the Unix
  epoch, UTC.  `hour`, `minute`, `weekday()` and `.date()` are derived
  arithmetically exactly as the calendar derives them for UTC datetimes;
  `timedelta.days` is floor division by 86400 (Python floors toward minus
  infinity, which is `Int.fdiv`).
* Python `dict`s are modelled as association lists (`Dict`) with
  first-match lookup and replace-or-append insertion, which matches dict
  semantics (unique keys, insertion order) for every use in this code.
* `math.sqrt` appears only through `std_dev = sqrt(max 0 variance)`.  All
  claims depend only on the sign of `std_dev`, never on its exact value, so
  the embedding is parametrised by a `SqrtFn`: an arbitrary function with
  the sign behaviour of the real square root on nonnegative inputs.  Every
  theorem quantifies over all such functions; witnesses instantiate it with
  the identity-like stub `sqrtStub`.
* Operations on which Python would raise (dict key misses, list index
  errors, `list.index` misses) are modelled in the `Option` monad; `none`
  means "this call raises".
* Purely presentational strings (descriptions, `f"{x:.1f}"` formatting,
  human-readable durations, notification message bodies) are omitted from
  the embedded records; every numeric field, status field and control-flow
  decision is embedded.
-/

/-! ## Time model -/

/-- Seconds since the Unix epoch (UTC), the embedding of `datetime`. -/
abbrev Timestamp := Int

/-- Python `timestamp.weekday()`: 0 = Monday .. 6 = Sunday.  The Unix epoch
1970-01-01 was a Thursday (= 3). -/
def weekdayOf (t : Timestamp) : Int :=
  (t.fdiv 86400 + 3) % 7

/-- Minutes since midnight, i.e. `timestamp.hour * 60 + timestamp.minute`. -/
def minutesSinceMidnight (t : Timestamp) : Int :=
  (t % 86400) / 60

/-- `_get_interval_index` (analyzer.py): the 15-minute interval index 0..95. -/
def intervalIndex (t : Timestamp) : Int :=
  minutesSinceMidnight t / 15

/-- Python `timestamp.date()`, as the day number since the epoch. -/
def dateOf (t : Timestamp) : Int :=
  t.fdiv 86400

/-- Python `(a - b).days` on timedeltas: floor division of the elapsed
seconds by 86400 (Python floors toward minus infinity). -/
def daysBetween (a b : Timestamp) : Int :=
  (a - b).fdiv 86400

theorem weekdayOf_nonneg (t : Timestamp) : 0 ≤ weekdayOf t :=
  Int.emod_nonneg _ (by norm_num)

theorem weekdayOf_lt_seven (t : Timestamp) : weekdayOf t < 7 :=
  Int.emod_lt_of_pos _ (by norm_num)

theorem intervalIndex_nonneg (t : Timestamp) : 0 ≤ intervalIndex t := by
  unfold intervalIndex minutesSinceMidnight
  omega

theorem intervalIndex_lt_96 (t : Timestamp) : intervalIndex t < 96 := by
  unfold intervalIndex minutesSinceMidnight
  omega

/-! ## Association lists (the embedding of Python dicts) -/

/-- Association list standing in for a Python `dict`. -/
abbrev Dict (α β : Type) := List (α × β)

/-- Dict lookup: first (= unique) binding for the key. -/
def alookup {α β : Type} [DecidableEq α] (l : Dict α β) (k : α) : Option β :=
  match l with
  | [] => none
  | (k', v) :: rest => if k = k' then some v else alookup rest k

/-- Dict assignment `d[k] = v`: replace the existing binding in place or
append a new one, preserving insertion order. -/
def ainsert {α β : Type} [DecidableEq α] (l : Dict α β) (k : α) (v : β) :
    Dict α β :=
  match l with
  | [] => [(k, v)]
  | (k', v') :: rest =>
      if k = k' then (k', v) :: rest else (k', v') :: ainsert rest k v

theorem alookup_ainsert_self {α β : Type} [DecidableEq α]
    (l : Dict α β) (k : α) (v : β) : alookup (ainsert l k v) k = some v := by
  induction l with
  | nil => simp [ainsert, alookup]
  | cons h t ih =>
      obtain ⟨k', v'⟩ := h
      by_cases hk : k = k' <;> simp [ainsert, alookup, hk, ih]

theorem alookup_ainsert_ne {α β : Type} [DecidableEq α]
    (l : Dict α β) (k k' : α) (v : β) (h : k' ≠ k) :
    alookup (ainsert l k v) k' = alookup l k' := by
  induction l with
  | nil => simp [ainsert, alookup, h]
  | cons hd t ih =>
      obtain ⟨k0, v0⟩ := hd
      by_cases hk : k = k0
      · subst hk
        simp [ainsert, alookup, h]
      · by_cases hk' : k' = k0 <;> simp [ainsert, alookup, hk, hk', ih]

theorem ainsert_keys_subset {α β : Type} [DecidableEq α]
    (l : Dict α β) (k : α) (v : β) :
    ((ainsert l k v).map Prod.fst) = l.map Prod.fst ∨
    ((ainsert l k v).map Prod.fst) = l.map Prod.fst ++ [k] := by
  induction l with
  | nil => right; simp [ainsert]
  | cons hd t ih =>
      obtain ⟨k0, v0⟩ := hd
      by_cases hk : k = k0
      · left; simp [ainsert, hk]
      · rcases ih with h | h
        · left; simp [ainsert, hk, h]
        · right; simp [ainsert, hk, h]

/-! ## Z-score values and severity grading -/

/-- A Python float z-score that may be the literal `float("inf")`. -/
inductive ZVal where
  | inf : ZVal
  | fin : ℚ → ZVal
deriving DecidableEq

/-- `z > t` for a possibly-infinite z-score and a finite threshold
(IEEE semantics: infinity exceeds every finite value). -/
def ZVal.gtQ : ZVal → ℚ → Bool
  | .inf, _ => true
  | .fin q, t => decide (t < q)

/-- `z >= t` for a possibly-infinite z-score and a finite threshold. -/
def ZVal.geQ : ZVal → ℚ → Bool
  | .inf, _ => true
  | .fin q, t => decide (t ≤ q)

/-- `_get_severity` (analyzer.py): severity band of a Z-score, using the
`SEVERITY_THRESHOLDS` from const.py (1.5 / 2.5 / 3.5 / 4.5). -/
def getSeverity (z : ZVal) : String :=
  if z.geQ (9/2) then "critical"
  else if z.geQ (7/2) then "significant"
  else if z.geQ (5/2) then "moderate"
  else if z.geQ (3/2) then "minor"
  else "normal"

/-- The five severity strings, in the order of `severity_order` in
`_send_notification` (coordinator.py). -/
def severityOrder : List String :=
  ["critical", "significant", "moderate", "minor", "normal"]

/-- Python `list.index`, which raises (here: `none`) when absent. -/
def listIndex? {α : Type} [DecidableEq α] (l : List α) (x : α) : Option Nat :=
  match l with
  | [] => none
  | y :: rest => if x = y then some 0 else (listIndex? rest x).map (· + 1)

theorem listIndex?_getSeverity (z : ZVal) :
    (listIndex? severityOrder (getSeverity z)).isSome := by
  unfold getSeverity
  by_cases h1 : z.geQ (9/2) <;> by_cases h2 : z.geQ (7/2) <;>
    by_cases h3 : z.geQ (5/2) <;> by_cases h4 : z.geQ (3/2) <;>
    simp [h1, h2, h3, h4, severityOrder, listIndex?]

/-! ## The square-root parameter -/

/-- Abstraction of `math.sqrt` composed with the clamped variance: the code
only ever branches on the SIGN of `std_dev`, so we model `std_dev` as
`s.f variance'` for an arbitrary function `s.f` that is nonnegative and
vanishes exactly on zero (the two properties of the real square root on the
clamped, hence nonnegative, variance). -/
structure SqrtFn where
  f : ℚ → ℚ
  nonneg : ∀ q, 0 ≤ f q
  zero_iff : ∀ q, 0 ≤ q → (f q = 0 ↔ q = 0)

/-- A concrete `SqrtFn` used by witnesses: on the nonnegative inputs that
occur it is simply the identity (same sign behaviour as the square root). -/
def sqrtStub : SqrtFn where
  f := fun q => max q 0
  nonneg := fun q => le_max_right q 0
  zero_iff := fun q hq => by
    simp only []
    rw [max_eq_left hq]

/-! ## TimeBucket (analyzer.py) -/

/-- `TimeBucket`: one (weekday, interval) accumulator cell. -/
structure TimeBucket where
  count : ℕ
  sum_values : ℚ
  sum_squared : ℚ
deriving DecidableEq, Repr

/-- The all-zero bucket `TimeBucket()`. -/
def TimeBucket.default : TimeBucket := ⟨0, 0, 0⟩

/-- `TimeBucket.mean`: `sum_values / count`, 0 when empty. -/
def TimeBucket.mean (b : TimeBucket) : ℚ :=
  if b.count = 0 then 0 else b.sum_values / (b.count : ℚ)

/-- The clamped variance `max(0, sum_squared/count - mean^2)` guarded by
`count < 2`; `std_dev` in the source is the square root of this value, so
`std_dev = 0` iff this is 0 and `std_dev > 0` iff this is positive. -/
def TimeBucket.stdDevSq (b : TimeBucket) : ℚ :=
  if b.count < 2 then 0
  else max 0 (b.sum_squared / (b.count : ℚ) - b.mean ^ 2)

theorem TimeBucket.stdDevSq_nonneg (b : TimeBucket) : 0 ≤ b.stdDevSq := by
  unfold TimeBucket.stdDevSq
  split
  · exact le_refl 0
  · exact le_max_left 0 _

/-- `TimeBucket.add_observation(value)`. -/
def TimeBucket.add_observation (b : TimeBucket) (value : ℚ) : TimeBucket :=
  { count := b.count + 1
    sum_values := b.sum_values + value
    sum_squared := b.sum_squared + value ^ 2 }

/-- Serialized form of a `TimeBucket`; `Option` fields model missing keys
(`data.get(key, default)`). -/
structure TimeBucketDoc where
  count : Option ℕ
  sum_values : Option ℚ
  sum_squared : Option ℚ
deriving DecidableEq

/-- `TimeBucket.to_dict`. -/
def TimeBucket.to_dict (b : TimeBucket) : TimeBucketDoc :=
  ⟨some b.count, some b.sum_values, some b.sum_squared⟩

/-- `TimeBucket.from_dict`. -/
def TimeBucket.from_dict (d : TimeBucketDoc) : TimeBucket :=
  ⟨d.count.getD 0, d.sum_values.getD 0, d.sum_squared.getD 0⟩

theorem TimeBucket.from_to_dict (b : TimeBucket) :
    TimeBucket.from_dict b.to_dict = b := rfl

/-! ## EntityPattern (analyzer.py) -/

/-- `EntityPattern`: per-entity 7 x 96 bucket grid plus counters. -/
structure EntityPattern where
  entity_id : String
  day_buckets : Dict Int (List TimeBucket)
  total_observations : ℕ
  first_observation : Option Timestamp
  last_observation : Option Timestamp
deriving DecidableEq

/-- `[TimeBucket() for _ in range(INTERVALS_PER_DAY)]`. -/
def initBuckets : List TimeBucket := List.replicate 96 TimeBucket.default

/-- Body of `__post_init__`: add a fresh 96-bucket list for each missing
weekday 0..6. -/
def ensureDays (d : Dict Int (List TimeBucket)) : Dict Int (List TimeBucket) :=
  (List.range 7).foldl
    (fun acc day =>
      if (alookup acc (day : Int)).isSome then acc
      else ainsert acc (day : Int) initBuckets) d

/-- The `while len < INTERVALS_PER_DAY: append TimeBucket()` padding loop in
`EntityPattern.from_dict`; lists that are already long are NOT truncated.
(Nat subtraction makes the pad empty when the list has 96 or more cells.) -/
def padTo96 (l : List TimeBucket) : List TimeBucket :=
  l ++ List.replicate (96 - l.length) TimeBucket.default

/-- One iteration of the `for day in range(DAYS_IN_WEEK)` repair loop in
`EntityPattern.from_dict`: insert a fresh day if missing, else pad it. -/
def fixStep (acc : Dict Int (List TimeBucket)) (day : ℕ) :
    Dict Int (List TimeBucket) :=
  match alookup acc (day : Int) with
  | none => ainsert acc (day : Int) initBuckets
  | some l => ainsert acc (day : Int) (padTo96 l)

/-- The full repair loop of `EntityPattern.from_dict`. -/
def fixDays (d : Dict Int (List TimeBucket)) : Dict Int (List TimeBucket) :=
  (List.range 7).foldl fixStep d

/-- `EntityPattern(entity_id=...)`: dataclass defaults plus `__post_init__`. -/
def EntityPattern.new (eid : String) : EntityPattern :=
  { entity_id := eid
    day_buckets := ensureDays []
    total_observations := 0
    first_observation := none
    last_observation := none }

/-- The bucket `self.day_buckets[weekday][interval]` for a timestamp;
`none` when Python would raise a KeyError / IndexError. -/
def EntityPattern.getBucket? (p : EntityPattern) (t : Timestamp) :
    Option TimeBucket :=
  match alookup p.day_buckets (weekdayOf t) with
  | none => none
  | some l => l[(intervalIndex t).toNat]?

/-- `EntityPattern.get_expected_activity`: `(bucket.mean, bucket.std_dev)`. -/
def EntityPattern.get_expected_activity (s : SqrtFn) (p : EntityPattern)
    (t : Timestamp) : Option (ℚ × ℚ) :=
  (p.getBucket? t).map (fun b => (b.mean, s.f b.stdDevSq))

/-- `EntityPattern.record_activity(timestamp)`. -/
def EntityPattern.record_activity (p : EntityPattern) (t : Timestamp) :
    Option EntityPattern :=
  let d := weekdayOf t
  let i := (intervalIndex t).toNat
  match alookup p.day_buckets d with
  | none => none
  | some l =>
      if i < l.length then
        some { p with
          day_buckets :=
            ainsert p.day_buckets d
              (l.set i ((l.getD i TimeBucket.default).add_observation 1))
          total_observations := p.total_observations + 1
          first_observation := some (p.first_observation.getD t)
          last_observation := some t }
      else none

/-- Serialized form of an `EntityPattern` (the statistical document's
per-entity part).  The `str(day)` keys of `day_buckets` are modelled by the
integers they parse to, and ISO-8601 timestamps by the timestamps
themselves (both serializations are injective and exactly invertible). -/
structure EntityPatternDoc where
  entity_id : String
  day_buckets : Dict Int (List TimeBucketDoc)
  total_observations : Option ℕ
  first_observation : Option Timestamp
  last_observation : Option Timestamp
deriving DecidableEq

/-- `EntityPattern.to_dict`. -/
def EntityPattern.to_dict (p : EntityPattern) : EntityPatternDoc :=
  { entity_id := p.entity_id
    day_buckets := p.day_buckets.map (fun pr => (pr.1, pr.2.map TimeBucket.to_dict))
    total_observations := some p.total_observations
    first_observation := p.first_observation
    last_observation := p.last_observation }

/-- The `for day_str, buckets_data in day_buckets_data.items()` loading loop
of `EntityPattern.from_dict`. -/
def loadDayBuckets (docDays : Dict Int (List TimeBucketDoc))
    (init : Dict Int (List TimeBucket)) : Dict Int (List TimeBucket) :=
  docDays.foldl (fun acc pr => ainsert acc pr.1 (pr.2.map TimeBucket.from_dict)) init

/-- `EntityPattern.from_dict`. -/
def EntityPattern.from_dict (doc : EntityPatternDoc) : EntityPattern :=
  let base := EntityPattern.new doc.entity_id
  { entity_id := doc.entity_id
    day_buckets := fixDays (loadDayBuckets doc.day_buckets base.day_buckets)
    total_observations := doc.total_observations.getD 0
    first_observation := doc.first_observation
    last_observation := doc.last_observation }

/-- Well-formedness of a pattern as every reachable pattern satisfies it:
weekday keys exactly 0..6 in construction order, every day exactly 96
cells. -/
def EntityPattern.WF (p : EntityPattern) : Prop :=
  p.day_buckets.map Prod.fst = [0, 1, 2, 3, 4, 5, 6] ∧
  ∀ pr ∈ p.day_buckets, (pr.2 : List TimeBucket).length = 96

instance (p : EntityPattern) : Decidable p.WF := by
  unfold EntityPattern.WF
  infer_instance

/-! ## Dictionary lemmas for serialization proofs -/

theorem alookup_eq_some_of_mem {α β : Type} [DecidableEq α]
    (l : Dict α β) (k : α) (v : β)
    (hnd : (l.map Prod.fst).Nodup) (hmem : (k, v) ∈ l) :
    alookup l k = some v := by
  induction l with
  | nil => cases hmem
  | cons hd rest ih =>
      obtain ⟨k0, v0⟩ := hd
      rcases List.mem_cons.mp hmem with he | hm
      · obtain ⟨h1, h2⟩ := Prod.mk.injEq .. ▸ he
        cases he
        simp [alookup]
      · have hk : k ≠ k0 := by
          intro he
          subst he
          have hkm : k ∈ rest.map Prod.fst := by
            exact List.mem_map_of_mem Prod.fst hm
          simp only [List.map_cons, List.nodup_cons] at hnd
          exact hnd.1 hkm
        simp only [List.map_cons, List.nodup_cons] at hnd
        simp [alookup, hk, ih hnd.2 hm]

theorem ainsert_keys_of_mem {α β : Type} [DecidableEq α]
    (l : Dict α β) (k : α) (v : β) (h : k ∈ l.map Prod.fst) :
    (ainsert l k v).map Prod.fst = l.map Prod.fst := by
  induction l with
  | nil => cases h
  | cons hd rest ih =>
      obtain ⟨k0, v0⟩ := hd
      by_cases hk : k = k0
      · simp [ainsert, hk]
      · simp only [List.map_cons] at h
        rcases List.mem_cons.mp h with he | hm
        · exact absurd he hk
        · simp [ainsert, hk, ih hm]

theorem loadDayBuckets_lookup_notin (docDays : Dict Int (List TimeBucketDoc))
    (init : Dict Int (List TimeBucket)) (k : Int)
    (h : ∀ pr ∈ docDays, pr.1 ≠ k) :
    alookup (loadDayBuckets docDays init) k = alookup init k := by
  induction docDays generalizing init with
  | nil => rfl
  | cons hd rest ih =>
      obtain ⟨k0, v0⟩ := hd
      have hk0 : k0 ≠ k := h (k0, v0) (List.mem_cons_self _ _)
      have step : alookup (ainsert init k0 (v0.map TimeBucket.from_dict)) k
          = alookup init k := alookup_ainsert_ne init k0 k _ (fun he => hk0 he.symm)
      unfold loadDayBuckets at *
      simp only [List.foldl_cons]
      rw [ih _ (fun pr hpr => h pr (List.mem_cons_of_mem _ hpr)), step]

theorem loadDayBuckets_lookup_mem (docDays : Dict Int (List TimeBucketDoc))
    (init : Dict Int (List TimeBucket)) (k : Int) (v : List TimeBucketDoc)
    (hnd : (docDays.map Prod.fst).Nodup) (hmem : (k, v) ∈ docDays) :
    alookup (loadDayBuckets docDays init) k
      = some (v.map TimeBucket.from_dict) := by
  induction docDays generalizing init with
  | nil => cases hmem
  | cons hd rest ih =>
      obtain ⟨k0, v0⟩ := hd
      simp only [List.map_cons, List.nodup_cons] at hnd
      rcases List.mem_cons.mp hmem with he | hm
      · cases he
        unfold loadDayBuckets
        simp only [List.foldl_cons]
        have : ∀ pr ∈ rest, (pr : Int × List TimeBucketDoc).1 ≠ k := by
          intro pr hpr he
          exact hnd.1 (he ▸ List.mem_map_of_mem Prod.fst hpr)
        rw [show (rest.foldl (fun acc pr =>
              ainsert acc pr.1 (pr.2.map TimeBucket.from_dict))
              (ainsert init k (v.map TimeBucket.from_dict)))
            = loadDayBuckets rest (ainsert init k (v.map TimeBucket.from_dict))
            from rfl]
        rw [loadDayBuckets_lookup_notin rest _ k this]
        exact alookup_ainsert_self init k _
      · unfold loadDayBuckets
        simp only [List.foldl_cons]
        exact ih _ hnd.2 hm

theorem loadDayBuckets_keys_of_subset (docDays : Dict Int (List TimeBucketDoc))
    (init : Dict Int (List TimeBucket))
    (h : ∀ pr ∈ docDays, pr.1 ∈ init.map Prod.fst) :
    (loadDayBuckets docDays init).map Prod.fst = init.map Prod.fst := by
  induction docDays generalizing init with
  | nil => rfl
  | cons hd rest ih =>
      obtain ⟨k0, v0⟩ := hd
      unfold loadDayBuckets at *
      simp only [List.foldl_cons]
      have hkeys : (ainsert init k0 (v0.map TimeBucket.from_dict)).map Prod.fst
          = init.map Prod.fst :=
        ainsert_keys_of_mem init k0 _ (h (k0, v0) (List.mem_cons_self _ _))
      rw [ih _ (fun pr hpr => by
        rw [hkeys]
        exact h pr (List.mem_cons_of_mem _ hpr)), hkeys]

theorem foldl_fixStep_lookup_notin (days : List ℕ)
    (d : Dict Int (List TimeBucket)) (k : Int)
    (h : ∀ day ∈ days, (day : Int) ≠ k) :
    alookup (days.foldl fixStep d) k = alookup d k := by
  induction days generalizing d with
  | nil => rfl
  | cons day rest ih =>
      simp only [List.foldl_cons]
      rw [ih _ (fun x hx => h x (List.mem_cons_of_mem _ hx))]
      have hne : (day : Int) ≠ k := h day (List.mem_cons_self _ _)
      unfold fixStep
      cases alookup d (day : Int) with
      | none => exact alookup_ainsert_ne d _ k _ (fun he => hne he.symm)
      | some l => exact alookup_ainsert_ne d _ k _ (fun he => hne he.symm)

theorem foldl_fixStep_lookup_mem (days : List ℕ)
    (d : Dict Int (List TimeBucket)) (k : ℕ)
    (hk : k ∈ days) (hnd : days.Nodup) :
    alookup (days.foldl fixStep d) (k : Int)
      = some (match alookup d (k : Int) with
              | none => initBuckets
              | some l => padTo96 l) := by
  induction days generalizing d with
  | nil => cases hk
  | cons day rest ih =>
      simp only [List.nodup_cons] at hnd
      rcases List.mem_cons.mp hk with he | hm
      · subst he
        simp only [List.foldl_cons]
        have hrest : ∀ x ∈ rest, (x : Int) ≠ (k : Int) := by
          intro x hx he
          exact hnd.1 ((Int.ofNat_inj.mp he) ▸ hx)
        rw [foldl_fixStep_lookup_notin rest _ _ hrest]
        unfold fixStep
        cases alookup d (k : Int) with
        | none => exact alookup_ainsert_self d _ _
        | some l => exact alookup_ainsert_self d _ _
      · simp only [List.foldl_cons]
        have hne : (k : Int) ≠ (day : Int) := by
          intro he
          exact hnd.1 ((Int.ofNat_inj.mp he) ▸ hm)
        have hstep : alookup (fixStep d day) (k : Int) = alookup d (k : Int) := by
          unfold fixStep
          cases alookup d (day : Int) with
          | none => exact alookup_ainsert_ne d _ _ _ hne
          | some l => exact alookup_ainsert_ne d _ _ _ hne
        rw [ih _ hm hnd.2, hstep]

theorem foldl_fixStep_keys (days : List ℕ) (d : Dict Int (List TimeBucket))
    (h : ∀ day ∈ days, (day : Int) ∈ d.map Prod.fst) :
    (days.foldl fixStep d).map Prod.fst = d.map Prod.fst := by
  induction days generalizing d with
  | nil => rfl
  | cons day rest ih =>
      simp only [List.foldl_cons]
      have hmem := h day (List.mem_cons_self _ _)
      have hkeys : (fixStep d day).map Prod.fst = d.map Prod.fst := by
        unfold fixStep
        cases alookup d (day : Int) with
        | none => exact ainsert_keys_of_mem d _ _ hmem
        | some l => exact ainsert_keys_of_mem d _ _ hmem
      rw [ih _ (fun x hx => by
        rw [hkeys]
        exact h x (List.mem_cons_of_mem _ hx)), hkeys]

/-! ## Rounding -/

/-- Python `round(x)` on a float: round-half-to-even. -/
def roundHalfEven (x : ℚ) : Int :=
  let f := ⌊x⌋
  let r := x - (f : ℚ)
  if r < 1/2 then f
  else if 1/2 < r then f + 1
  else if f % 2 = 0 then f else f + 1

/-- Python `round(x, n)`: round-half-to-even at `n` decimal places
(idealised over exact rationals). -/
def roundQ (x : ℚ) (n : ℕ) : ℚ :=
  (roundHalfEven (x * 10 ^ n) : ℚ) / 10 ^ n

/-! ## PatternAnalyzer (analyzer.py): state and recording -/

/-- `PatternAnalyzer.__init__` state.  `_daily_count_date` stores a
`date` (day number); `_current_interval` and `_current_interval_day`
start at -1. -/
structure PatternAnalyzer where
  sensitivity_threshold : ℚ
  learning_period_days : Int
  patterns : Dict String EntityPattern
  daily_counts : Dict String ℕ
  daily_count_date : Option Int
  current_interval_activity : Dict String ℕ
  current_interval : Int
  current_interval_day : Int
deriving DecidableEq

/-- `PatternAnalyzer(sensitivity_threshold, learning_period_days)`. -/
def PatternAnalyzer.new (threshold : ℚ) (learning : Int) : PatternAnalyzer :=
  { sensitivity_threshold := threshold
    learning_period_days := learning
    patterns := []
    daily_counts := []
    daily_count_date := none
    current_interval_activity := []
    current_interval := -1
    current_interval_day := -1 }

/-- `PatternAnalyzer.get_pattern`: get or lazily create the pattern,
returning it together with the possibly-extended analyzer. -/
def PatternAnalyzer.get_pattern (a : PatternAnalyzer) (eid : String) :
    EntityPattern × PatternAnalyzer :=
  match alookup a.patterns eid with
  | some p => (p, a)
  | none =>
      (EntityPattern.new eid,
       { a with patterns := ainsert a.patterns eid (EntityPattern.new eid) })

/-- `PatternAnalyzer.record_state_change(entity_id, timestamp)`. -/
def PatternAnalyzer.record_state_change (a : PatternAnalyzer) (eid : String)
    (t : Timestamp) : Option PatternAnalyzer :=
  let pa := a.get_pattern eid
  match pa.1.record_activity t with
  | none => none
  | some p1 =>
      let a2 := { pa.2 with patterns := ainsert pa.2.patterns eid p1 }
      let today := dateOf t
      let a3 :=
        if a2.daily_count_date ≠ some today then
          { a2 with daily_counts := [], daily_count_date := some today }
        else a2
      let a4 := { a3 with
        daily_counts :=
          ainsert a3.daily_counts eid ((alookup a3.daily_counts eid).getD 0 + 1) }
      let ci := intervalIndex t
      let cd := weekdayOf t
      let a5 :=
        if ci ≠ a4.current_interval ∨ cd ≠ a4.current_interval_day then
          { a4 with current_interval := ci, current_interval_day := cd,
                    current_interval_activity := [] }
        else a4
      some { a5 with
        current_interval_activity :=
          ainsert a5.current_interval_activity eid
            ((alookup a5.current_interval_activity eid).getD 0 + 1) }

/-- `PatternAnalyzer.get_current_interval_activity`: the live per-entity
counts, or empty when the tracked interval is no longer the current one. -/
def PatternAnalyzer.get_current_interval_activity (a : PatternAnalyzer)
    (now : Timestamp) : Dict String ℕ :=
  if intervalIndex now ≠ a.current_interval ∨ weekdayOf now ≠ a.current_interval_day
  then [] else a.current_interval_activity

/-- `PatternAnalyzer.get_daily_count(entity_id)`. -/
def PatternAnalyzer.get_daily_count (a : PatternAnalyzer) (eid : String)
    (now : Timestamp) : ℕ :=
  if a.daily_count_date ≠ some (dateOf now) then 0
  else (alookup a.daily_counts eid).getD 0

/-- `PatternAnalyzer.get_total_daily_count`. -/
def PatternAnalyzer.get_total_daily_count (a : PatternAnalyzer)
    (now : Timestamp) : ℕ :=
  if a.daily_count_date ≠ some (dateOf now) then 0
  else (a.daily_counts.map Prod.snd).sum

/-- One iteration of the `min_first_obs` loop of
`PatternAnalyzer.get_confidence`. -/
def minObsStep (acc : Option Timestamp) (pr : String × EntityPattern) :
    Option Timestamp :=
  match pr.2.first_observation with
  | none => acc
  | some t =>
      match acc with
      | none => some t
      | some m => if t < m then some t else some m

/-- The `min_first_obs` loop of `PatternAnalyzer.get_confidence`: earliest
`first_observation` across all entities. -/
def PatternAnalyzer.minFirstObs (a : PatternAnalyzer) : Option Timestamp :=
  a.patterns.foldl minObsStep none

/-- `PatternAnalyzer.get_confidence`: baseline confidence 0-100. -/
def PatternAnalyzer.get_confidence (a : PatternAnalyzer) (now : Timestamp) : ℚ :=
  if a.patterns = [] then 0
  else
    match a.minFirstObs with
    | none => 0
    | some m =>
        min 100 ((daysBetween now m : ℚ) / (a.learning_period_days : ℚ) * 100)

/-- `PatternAnalyzer.is_learning_complete`: `confidence >= 100`. -/
def PatternAnalyzer.is_learning_complete (a : PatternAnalyzer)
    (now : Timestamp) : Bool :=
  100 ≤ a.get_confidence now

/-! ## Statistical anomaly detection (analyzer.py) -/

/-- `AnomalyResult` (the presentational `time_slot` / `description` strings
are omitted; all numeric and categorical fields are embedded). -/
structure AnomalyResult where
  is_anomaly : Bool
  entity_id : String
  anomaly_type : String
  z_score : ZVal
  expected_mean : ℚ
  expected_std : ℚ
  actual_value : ℚ
  timestamp : Timestamp
  severity : String
deriving DecidableEq

/-- The detector's Z-score computation (analyzer.py lines 386-393): the
`std_dev > 0` ratio, the zero-variance `inf` / `threshold + 1` sentinel
when the value differs from the mean, else 0. -/
def detectorZ (threshold mean std actual : ℚ) : ZVal :=
  if 0 < std then .fin (|actual - mean| / std)
  else if actual ≠ mean then
    (if 0 < actual then .inf else .fin (threshold + 1))
  else .fin 0

/-- The skip / flag decision of the per-entity body of
`check_for_anomalies`: `none` when the slot has no data or the Z-score does
not exceed the threshold, `some r` when an anomaly is flagged. -/
def anomalyDecision (threshold : ℚ) (now : Timestamp) (eid : String)
    (mean std actual : ℚ) : Option AnomalyResult :=
  if std = 0 ∧ mean = 0 then none
  else
    let z := detectorZ threshold mean std actual
    if z.gtQ threshold then
      some
        { is_anomaly := true
          entity_id := eid
          anomaly_type :=
            if mean < actual then "unusual_activity" else "unusual_inactivity"
          z_score := z
          expected_mean := mean
          expected_std := std
          actual_value := actual
          timestamp := now
          severity := getSeverity z }
    else none

/-- One iteration of the per-entity loop of
`PatternAnalyzer.check_for_anomalies`: `some none` means the entity is
skipped or not flagged, `some (some r)` means it is flagged, `none` means
the bucket lookup would raise. -/
def checkEntityAnomaly (s : SqrtFn) (threshold : ℚ) (now : Timestamp)
    (cia : Dict String ℕ) (eid : String) (p : EntityPattern) :
    Option (Option AnomalyResult) :=
  (p.get_expected_activity s now).map
    (fun ms =>
      anomalyDecision threshold now eid ms.1 ms.2
        (((alookup cia eid).getD 0 : ℕ) : ℚ))

/-- `PatternAnalyzer.check_for_anomalies(current_interval_activity)`: hard
learning gate first, then the per-entity scan.  `cia? = none` models the
default argument (fall back to the live current-interval counts). -/
def PatternAnalyzer.check_for_anomalies (s : SqrtFn) (a : PatternAnalyzer)
    (now : Timestamp) (cia? : Option (Dict String ℕ)) :
    Option (List AnomalyResult) :=
  if a.is_learning_complete now then
    let cia := cia?.getD (a.get_current_interval_activity now)
    (a.patterns.mapM
        (fun pr => checkEntityAnomaly s a.sensitivity_threshold now cia pr.1 pr.2)).map
      (fun l => l.filterMap id)
  else some []

/-! ## Elder-care metrics (analyzer.py) -/

/-- One entry of `PatternAnalyzer.get_entity_status` (presentational
formatted-duration strings omitted). -/
structure EntityStatus where
  entity_id : String
  last_activity : Option Timestamp
  time_since_seconds : Option ℚ
  daily_count : ℕ
  current_interval_count : ℕ
  expected_interval_count : ℚ
  z_score : ℚ
  severity : String
  status : String
deriving DecidableEq

/-- The status Z-score computation of `get_entity_status` (analyzer.py
lines 583-588): the same `std_dev > 0` ratio as the detector, but the FIXED
sentinel `3.0` (guarded by `expected_mean > 0`) in the zero-variance
branch. -/
def statusZ (mean std actual : ℚ) : ℚ :=
  if 0 < std then |actual - mean| / std
  else if actual ≠ mean ∧ 0 < mean then 3
  else 0

/-- The `status` bands of `get_entity_status`. -/
def statusBand (z : ℚ) : String :=
  if z < 3/2 then "normal"
  else if z < 5/2 then "attention"
  else if z < 7/2 then "concern"
  else "alert"

def entityStatusOf (s : SqrtFn) (a : PatternAnalyzer) (now : Timestamp)
    (eid : String) (p : EntityPattern) : Option EntityStatus :=
  (p.get_expected_activity s now).map
    (fun ms =>
      let actualN : ℕ := (alookup a.current_interval_activity eid).getD 0
      let z : ℚ := statusZ ms.1 ms.2 (actualN : ℚ)
      { entity_id := eid
        last_activity := p.last_observation
        time_since_seconds := p.last_observation.map (fun t => ((now - t : Int) : ℚ))
        daily_count := a.get_daily_count eid now
        current_interval_count := actualN
        expected_interval_count := roundQ ms.1 1
        z_score := roundQ z 2
        severity := getSeverity (.fin z)
        status := statusBand z })

/-- The `severity_order` ranking used to sort entity statuses
(most concerning first); unknown statuses rank 4 (`.get(status, 4)`). -/
def statusRank (st : String) : ℕ :=
  if st = "alert" then 0
  else if st = "concern" then 1
  else if st = "attention" then 2
  else if st = "normal" then 3
  else 4

/-- `PatternAnalyzer.get_entity_status`: per-entity scan followed by the
stable sort on `statusRank` (Python's `list.sort` is stable; so is
`List.mergeSort`). -/
def PatternAnalyzer.get_entity_status (s : SqrtFn) (a : PatternAnalyzer)
    (now : Timestamp) : Option (List EntityStatus) :=
  (a.patterns.mapM (fun pr => entityStatusOf s a now pr.1 pr.2)).map
    (fun l => l.mergeSort (fun x y => statusRank x.status ≤ statusRank y.status))

/-- `PatternAnalyzer.get_last_activity_time`: latest `last_observation`. -/
def PatternAnalyzer.get_last_activity_time (a : PatternAnalyzer) :
    Option Timestamp :=
  a.patterns.foldl
    (fun acc pr =>
      match pr.2.last_observation with
      | none => acc
      | some t =>
          match acc with
          | none => some t
          | some m => if m < t then some t else some m) none

/-- `PatternAnalyzer.get_typical_interval(entity_id)`: 86400 divided by the
summed expected daily activity of today's weekday. -/
def PatternAnalyzer.get_typical_interval (a : PatternAnalyzer) (now : Timestamp)
    (eid? : Option String) : Option ℚ :=
  let pats : List EntityPattern :=
    match eid? with
    | some eid =>
        match alookup a.patterns eid with
        | some p => [p]
        | none => []
    | none => a.patterns.map Prod.snd
  if pats = [] then some 0
  else
    (pats.mapM (fun p =>
        (alookup p.day_buckets (weekdayOf now)).map
          (fun l => (l.map TimeBucket.mean).sum))).map
      (fun sums =>
        let total := (sums.filter (fun q => decide (0 < q))).sum
        if total = 0 then 0 else 86400 / total)

/-- Result of `get_time_since_activity_context` (formatted strings
omitted). -/
structure ActivityContext where
  time_since_seconds : Option ℚ
  typical_interval_seconds : ℚ
  status : String
  concern_level : ℚ
deriving DecidableEq

/-- `PatternAnalyzer.get_time_since_activity_context`. -/
def PatternAnalyzer.get_time_since_activity_context (a : PatternAnalyzer)
    (now : Timestamp) : Option ActivityContext :=
  match a.get_last_activity_time with
  | none =>
      some { time_since_seconds := none, typical_interval_seconds := 0,
             status := "unknown", concern_level := 0 }
  | some last =>
      (a.get_typical_interval now none).map
        (fun typical =>
          let ts : ℚ := ((now - last : Int) : ℚ)
          let concern := if 0 < typical then ts / typical else 0
          { time_since_seconds := some ts
            typical_interval_seconds := typical
            status :=
              if concern < 3/2 then "normal"
              else if concern < 5/2 then "check_recommended"
              else if concern < 4 then "concern"
              else "alert"
            concern_level := roundQ concern 2 })

/-- Result of `get_routine_progress` (summary strings omitted). -/
structure RoutineProgress where
  progress_percent : ℚ
  expected_by_now : ℚ
  actual_today : ℕ
  expected_full_day : ℚ
  status : String
deriving DecidableEq

/-- `PatternAnalyzer.get_routine_progress`: expected activity from midnight
through the current interval versus today's actual count. -/
def PatternAnalyzer.get_routine_progress (a : PatternAnalyzer)
    (now : Timestamp) : Option RoutineProgress :=
  let day := weekdayOf now
  let ci := (intervalIndex now).toNat
  (a.patterns.mapM (fun (pr : String × EntityPattern) =>
      (alookup pr.2.day_buckets day).bind
        (fun l =>
          if ci + 1 ≤ l.length then
            some ((l.take (ci + 1)).map TimeBucket.mean).sum
          else none))).bind
    (fun partials =>
      (a.patterns.mapM (fun (pr : String × EntityPattern) =>
          (alookup pr.2.day_buckets day).map
            (fun l => (l.map TimeBucket.mean).sum))).map
        (fun fulls =>
          let expected_total := partials.sum
          let actual_total :=
            (a.patterns.map (fun pr => a.get_daily_count pr.1 now)).sum
          let progress :=
            if 0 < expected_total then
              min 100 ((actual_total : ℚ) / expected_total * 100)
            else 100
          { progress_percent := roundQ progress 1
            expected_by_now := roundQ expected_total 1
            actual_today := actual_total
            expected_full_day := roundQ fulls.sum 1
            status :=
              if 70 ≤ progress then "on_track"
              else if 40 ≤ progress then "below_normal"
              else if 20 ≤ progress then "concerning"
              else "alert" }))

/-- Result of `get_welfare_status` (reason strings omitted; the counts and
the aggregated status carry the decision). -/
structure WelfareStatus where
  status : String
  alert_count : ℕ
  concern_count : ℕ
  attention_count : ℕ
  normal_count : Int
deriving DecidableEq

/-- `PatternAnalyzer.get_welfare_status`: explicit precedence over the
aggregated signals (WELFARE_* constants from const.py). -/
def PatternAnalyzer.get_welfare_status (s : SqrtFn) (a : PatternAnalyzer)
    (now : Timestamp) : Option WelfareStatus :=
  (a.get_time_since_activity_context now).bind (fun ac =>
    (a.get_routine_progress now).bind (fun rp =>
      (a.get_entity_status s now).map (fun es =>
        let alert_count := (es.filter (fun e => e.status = "alert")).length
        let concern_count := (es.filter (fun e => e.status = "concern")).length
        let attention_count := (es.filter (fun e => e.status = "attention")).length
        { status :=
            if ac.status = "alert" then "alert"
            else if 0 < alert_count then "alert"
            else if ac.status = "concern" ∨ 0 < concern_count then "concern"
            else if rp.status = "concerning" ∨ rp.status = "alert" then "concern"
            else if ac.status = "check_recommended" ∨ 1 < attention_count then
              "check_recommended"
            else "ok"
          alert_count := alert_count
          concern_count := concern_count
          attention_count := attention_count
          normal_count :=
            (es.length : Int) - alert_count - concern_count - attention_count })))

/-- `PatternAnalyzer.calculate_activity_score`. -/
def PatternAnalyzer.calculate_activity_score (s : SqrtFn) (a : PatternAnalyzer)
    (now : Timestamp) : Option ℚ :=
  if a.patterns = [] then some 0
  else
    (a.patterns.mapM (fun (pr : String × EntityPattern) =>
        (pr.2.get_expected_activity s now).map
          (fun me => (me.1, a.get_daily_count pr.1 now)))).map
      (fun pairs =>
        let pos := pairs.filter (fun me => decide (0 < me.1))
        let total_expected := (pos.map Prod.fst).sum
        let total_actual :=
          (pos.map (fun me => min ((me.2 : ℚ) / 96) (me.1 * 2))).sum
        if total_expected = 0 then 50
        else min 100 (total_actual / total_expected * 100))

/-! ## PatternAnalyzer serialization (analyzer.py) -/

/-- Python `x or y` for an optional float argument: falls through to `y`
when `x` is `None` OR falsy (zero). -/
def pyOrQ (x? : Option ℚ) (y : ℚ) : ℚ :=
  match x? with
  | some x => if x = 0 then y else x
  | none => y

/-- Python `x or y` for an optional int argument. -/
def pyOrZ (x? : Option Int) (y : Int) : Int :=
  match x? with
  | some x => if x = 0 then y else x
  | none => y

/-- Serialized `PatternAnalyzer` (the statistical document's `analyzer`
part). -/
structure PatternAnalyzerDoc where
  patterns : Dict String EntityPatternDoc
  sensitivity_threshold : Option ℚ
  learning_period_days : Option Int
deriving DecidableEq

/-- `PatternAnalyzer.to_dict`. -/
def PatternAnalyzer.to_dict (a : PatternAnalyzer) : PatternAnalyzerDoc :=
  { patterns := a.patterns.map (fun pr => (pr.1, pr.2.to_dict))
    sensitivity_threshold := some a.sensitivity_threshold
    learning_period_days := some a.learning_period_days }

/-- `PatternAnalyzer.from_dict(data, sensitivity_threshold,
learning_period_days)`: fresh analyzer, then the
`for entity_id, pattern_data in patterns_data.items()` loading loop. -/
def PatternAnalyzer.from_dict (doc : PatternAnalyzerDoc)
    (thr? : Option ℚ) (learn? : Option Int) : PatternAnalyzer :=
  let base := PatternAnalyzer.new
    (pyOrQ thr? (doc.sensitivity_threshold.getD 2))
    (pyOrZ learn? (doc.learning_period_days.getD 7))
  { base with
    patterns :=
      doc.patterns.foldl
        (fun acc pr => ainsert acc pr.1 (EntityPattern.from_dict pr.2)) [] }

/-- Modelled from the spec: `PatternAnalyzer.get_training_time_remaining`
is called by the coordinator's periodic update and exercised by the test
suite, but its definition is not among the provided sources.  Per the
spec's learning-gate semantics it is a pure, total readout of the
statistical learning progress (complete iff `is_learning_complete`, with
the remaining whole days of the learning period). -/
structure TrainingInfo where
  complete : Bool
  days_remaining : Int
deriving DecidableEq

/-- Modelled from the spec: statistical training-time-remaining readout
(see `TrainingInfo`). -/
def PatternAnalyzer.get_training_time_remaining (a : PatternAnalyzer)
    (now : Timestamp) : TrainingInfo :=
  { complete := a.is_learning_complete now
    days_remaining :=
      match a.minFirstObs with
      | none => a.learning_period_days
      | some m => max 0 (a.learning_period_days - daysBetween now m) }

/-! ## ML analyzer (ml_analyzer.py) -/

/-- `StateChangeEvent` (ml_analyzer.py). -/
structure StateChangeEvent where
  entity_id : String
  timestamp : Timestamp
  old_state : Option String
  new_state : Option String
deriving DecidableEq

/-- Serialized `StateChangeEvent` (ISO timestamps round-trip exactly, so
they are modelled by the timestamp itself). -/
structure StateChangeEventDoc where
  entity_id : String
  timestamp : Timestamp
  old_state : Option String
  new_state : Option String
deriving DecidableEq

/-- `StateChangeEvent.to_dict`. -/
def StateChangeEvent.to_dict (e : StateChangeEvent) : StateChangeEventDoc :=
  ⟨e.entity_id, e.timestamp, e.old_state, e.new_state⟩

/-- `StateChangeEvent.from_dict`. -/
def StateChangeEvent.from_dict (d : StateChangeEventDoc) : StateChangeEvent :=
  ⟨d.entity_id, d.timestamp, d.old_state, d.new_state⟩

/-- `CrossSensorPattern` (ml_analyzer.py). -/
structure CrossSensorPattern where
  entity_a : String
  entity_b : String
  co_occurrence_count : ℕ
  avg_time_delta_seconds : ℚ
  a_before_b_count : ℕ
  b_before_a_count : ℕ
deriving DecidableEq

/-- `CrossSensorPattern.correlation_strength`, parametrised by `logF`
standing for the transcendental count factor `min(1, log1p(count) / 5)`
(like the square root, only externally computable; no claim depends on its
value). -/
def correlation_strength (logF : ℕ → ℚ) (p : CrossSensorPattern) : ℚ :=
  if p.co_occurrence_count = 0 then 0
  else
    let total := p.a_before_b_count + p.b_before_a_count
    if total = 0 then 0
    else
      ((max p.a_before_b_count p.b_before_a_count : ℚ) / (total : ℚ)) *
        logF p.co_occurrence_count

/-- Serialized `CrossSensorPattern`. -/
structure CrossSensorPatternDoc where
  entity_a : String
  entity_b : String
  co_occurrence_count : Option ℕ
  avg_time_delta_seconds : Option ℚ
  a_before_b_count : Option ℕ
  b_before_a_count : Option ℕ
deriving DecidableEq

/-- `CrossSensorPattern.to_dict`. -/
def CrossSensorPattern.to_dict (p : CrossSensorPattern) : CrossSensorPatternDoc :=
  ⟨p.entity_a, p.entity_b, some p.co_occurrence_count,
   some p.avg_time_delta_seconds, some p.a_before_b_count,
   some p.b_before_a_count⟩

/-- `CrossSensorPattern.from_dict`. -/
def CrossSensorPattern.from_dict (d : CrossSensorPatternDoc) : CrossSensorPattern :=
  ⟨d.entity_a, d.entity_b, d.co_occurrence_count.getD 0,
   d.avg_time_delta_seconds.getD 0, d.a_before_b_count.getD 0,
   d.b_before_a_count.getD 0⟩

/-- `MLAnomalyResult` (description string omitted). -/
structure MLAnomalyResult where
  is_anomaly : Bool
  entity_id : Option String
  anomaly_score : ℚ
  anomaly_type : String
  timestamp : Timestamp
  related_entities : List String
deriving DecidableEq

/-- A feature vector from `_extract_features` (all in [0,1]). -/
structure Features where
  hour : ℚ
  minute_bucket : ℚ
  day_of_week : ℚ
  is_weekend : ℚ
  time_since_last : ℚ
  recent_activity : ℚ
  entity_idx : ℚ
deriving DecidableEq

/-- `MLPatternAnalyzer` state.  The River `HalfSpaceTrees` model is an
external collaborator; its state is modelled observationally as the
sequence of feature vectors it has learned (`learn_one` appends), with
`none` standing for `self._model is None` / River unavailable. -/
structure MLState where
  contamination : ℚ
  cross_sensor_window : Int
  events : List StateChangeEvent
  model : Option (List Features)
  samples_processed : ℕ
  cross_sensor_patterns : Dict (String × String) CrossSensorPattern
  entity_last_change : Dict String Timestamp
  recent_events_window : List StateChangeEvent
  entity_indices : Dict String ℕ
  became_effective_at : Option Timestamp
  last_warmup : Option Timestamp
deriving DecidableEq

/-- `MLPatternAnalyzer(contamination, cross_sensor_window_seconds)`;
`avail` is the startup `ML_AVAILABLE` capability flag. -/
def MLState.new (avail : Bool) (contamination : ℚ) (window : Int) : MLState :=
  { contamination := contamination
    cross_sensor_window := window
    events := []
    model := if avail then some [] else none
    samples_processed := 0
    cross_sensor_patterns := []
    entity_last_change := []
    recent_events_window := []
    entity_indices := []
    became_effective_at := none
    last_warmup := none }

/-- `MLPatternAnalyzer.is_trained`: River available and enough samples
(`MIN_SAMPLES_FOR_ML = 100`). -/
def MLState.is_trained (m : MLState) : Bool :=
  m.model.isSome && 100 ≤ m.samples_processed

/-- `MLPatternAnalyzer.last_trained`: `last_warmup or became_effective_at`. -/
def MLState.last_trained (m : MLState) : Option Timestamp :=
  match m.last_warmup with
  | some t => some t
  | none => m.became_effective_at

/-- Modelled from the spec: `MLPatternAnalyzer.first_event_time` is read by
the coordinator's ML notification gate (`now - first_event_time >=
ml_learning_period_days`) but its definition is not among the provided
sources; per the spec it is the time of the first recorded ML event. -/
def MLState.first_event_time (m : MLState) : Option Timestamp :=
  m.events.head?.map (fun e => e.timestamp)

/-- `MLPatternAnalyzer._get_entity_index` (mutates the index map on first
sight of an entity). -/
def MLState.getEntityIndex (m : MLState) (eid : String) : ℕ × MLState :=
  match alookup m.entity_indices eid with
  | some i => (i, m)
  | none =>
      (m.entity_indices.length,
       { m with entity_indices :=
           ainsert m.entity_indices eid m.entity_indices.length })

/-- `MLPatternAnalyzer._extract_features` (stateful through the entity
index map). -/
def MLState.extractFeatures (m : MLState) (e : StateChangeEvent) :
    Features × MLState :=
  let ts := e.timestamp
  let hour := (ts % 86400) / 3600
  let minute := ((ts % 86400) % 3600) / 60
  let minuteBucket := minute / 15
  let dow := weekdayOf ts
  let isWeekend : ℚ := if 5 ≤ dow then 1 else 0
  let tsl : ℚ :=
    match alookup m.entity_last_change e.entity_id with
    | some lc => if lc < ts then ((ts - lc : Int) : ℚ) else 0
    | none => 0
  let tslN := (min tsl 86400) / 86400
  let hourAgo := ts - 3600
  let recent := m.events.drop (m.events.length - 1000)
  let recentCount :=
    (recent.filter
      (fun ev => ev.entity_id = e.entity_id ∧ hourAgo ≤ ev.timestamp)).length
  let im := m.getEntityIndex e.entity_id
  let total : ℕ := max 1 im.2.entity_indices.length
  ({ hour := (hour : ℚ) / 23
     minute_bucket := (minuteBucket : ℚ) / 3
     day_of_week := (dow : ℚ) / 6
     is_weekend := isWeekend
     time_since_last := tslN
     recent_activity := (min recentCount 20 : ℚ) / 20
     entity_idx := (im.1 : ℚ) / (total : ℚ) }, im.2)

/-- One `for recent_event in self._recent_events_window` iteration of
`_update_cross_sensor_patterns`. -/
def updateCSP (pats : Dict (String × String) CrossSensorPattern)
    (recentEv newEv : StateChangeEvent) :
    Dict (String × String) CrossSensorPattern :=
  if recentEv.entity_id = newEv.entity_id then pats
  else
    let ea := if recentEv.entity_id < newEv.entity_id
              then recentEv.entity_id else newEv.entity_id
    let eb := if recentEv.entity_id < newEv.entity_id
              then newEv.entity_id else recentEv.entity_id
    let key := (ea, eb)
    let p0 := (alookup pats key).getD ⟨ea, eb, 0, 0, 0, 0⟩
    let n := p0.co_occurrence_count + 1
    let dt : ℚ := ((newEv.timestamp - recentEv.timestamp : Int) : ℚ)
    let p1 : CrossSensorPattern :=
      { p0 with
        co_occurrence_count := n
        avg_time_delta_seconds :=
          p0.avg_time_delta_seconds + (|dt| - p0.avg_time_delta_seconds) / (n : ℚ)
        a_before_b_count :=
          if recentEv.entity_id = ea then p0.a_before_b_count + 1
          else p0.a_before_b_count
        b_before_a_count :=
          if recentEv.entity_id = ea then p0.b_before_a_count
          else p0.b_before_a_count + 1 }
    ainsert pats key p1

/-- `MLPatternAnalyzer._update_cross_sensor_patterns`: prune the sliding
window, fold the co-occurrence updates, append the new event. -/
def MLState.updateCrossSensor (m : MLState) (e : StateChangeEvent) : MLState :=
  let cutoff := e.timestamp - m.cross_sensor_window
  let window := m.recent_events_window.filter (fun ev => cutoff ≤ ev.timestamp)
  { m with
    cross_sensor_patterns :=
      window.foldl (fun acc ev => updateCSP acc ev e) m.cross_sensor_patterns
    recent_events_window := window ++ [e] }

/-- `MLPatternAnalyzer.record_event`. -/
def MLState.record_event (m : MLState) (eid : String) (t : Timestamp)
    (old fresh : Option String) : MLState :=
  let e : StateChangeEvent := ⟨eid, t, old, fresh⟩
  let m1 := { m with events := m.events ++ [e] }
  let m2 := m1.updateCrossSensor e
  let m3 :=
    match m2.model with
    | none => m2
    | some learned =>
        let fm := m2.extractFeatures e
        let mA := fm.2
        let mB := { mA with
          model := some (learned ++ [fm.1])
          samples_processed := mA.samples_processed + 1 }
        if mB.became_effective_at = none ∧ 100 ≤ mB.samples_processed then
          { mB with became_effective_at := some t }
        else mB
  { m3 with entity_last_change := ainsert m3.entity_last_change eid t }

/-- One `for event in self._events` iteration of the `train()` replay:
extract features, feed them to the fresh model (`learn_one` appends),
increment `samples_processed`, track the entity's last change. -/
def trainStep (acc : MLState) (e : StateChangeEvent) : MLState :=
  let fm := acc.extractFeatures e
  let accA := fm.2
  { accA with
    model := some ((accA.model.getD []) ++ [fm.1])
    samples_processed := accA.samples_processed + 1
    entity_last_change := ainsert accA.entity_last_change e.entity_id e.timestamp }

/-- `MLPatternAnalyzer.train`: reset the model and replay the whole event
log through it in original order; returns the Python function's boolean. -/
def MLState.train (m : MLState) (now : Timestamp) : Bool × MLState :=
  if m.model = none then (false, m)
  else if m.events.length < 100 then (false, m)
  else
    let m0 := { m with model := some [], samples_processed := 0,
                       entity_last_change := [] }
    let m1 : MLState := m.events.foldl trainStep m0
    let m2 := { m1 with last_warmup := some now }
    let m3 :=
      if m2.became_effective_at = none ∧ 100 ≤ m2.samples_processed then
        { m2 with became_effective_at := some now }
      else m2
    (true, m3)

/-- `MLPatternAnalyzer.check_anomaly`, parametrised by the external River
scoring function `score` (model state, features ↦ anomaly score). -/
def MLState.check_anomaly (score : List Features → Features → ℚ) (m : MLState)
    (e : StateChangeEvent) : Option MLAnomalyResult × MLState :=
  if !m.is_trained || m.model = none then (none, m)
  else
    let fm := m.extractFeatures e
    let sc := score (fm.2.model.getD []) fm.1
    if 1 - m.contamination < sc then
      (some { is_anomaly := true
              entity_id := some e.entity_id
              anomaly_score := sc
              anomaly_type := "half_space_trees"
              timestamp := e.timestamp
              related_entities := [] }, fm.2)
    else (none, fm.2)

/-- `MLPatternAnalyzer.check_cross_sensor_anomalies` (with the default
`check_window = self._cross_sensor_window`). -/
def MLState.check_cross_sensor_anomalies (logF : ℕ → ℚ) (m : MLState)
    (recent_events : List StateChangeEvent) (now : Timestamp) :
    List MLAnomalyResult :=
  let strong := (m.cross_sensor_patterns.map Prod.snd).filter
    (fun p => decide (1/2 < correlation_strength logF p) &&
              decide (10 ≤ p.co_occurrence_count))
  if strong = [] then []
  else
    let recentChanges : Dict String Timestamp :=
      recent_events.foldl
        (fun acc ev =>
          if now - m.cross_sensor_window ≤ ev.timestamp then
            ainsert acc ev.entity_id ev.timestamp
          else acc) []
    strong.foldl
      (fun anoms p =>
        match alookup recentChanges p.entity_a, alookup recentChanges p.entity_b with
        | some aT, none =>
            if p.avg_time_delta_seconds * 2 < ((now - aT : Int) : ℚ) then
              anoms ++ [{ is_anomaly := true
                          entity_id := some p.entity_b
                          anomaly_score := 1/2
                          anomaly_type := "missing_correlation"
                          timestamp := now
                          related_entities := [p.entity_a] }]
            else anoms
        | none, some bT =>
            if p.avg_time_delta_seconds * 2 < ((now - bT : Int) : ℚ) then
              if p.b_before_a_count < p.a_before_b_count then
                anoms ++ [{ is_anomaly := true
                            entity_id := some p.entity_a
                            anomaly_score := 1/2
                            anomaly_type := "missing_correlation"
                            timestamp := now
                            related_entities := [p.entity_b] }]
              else anoms
            else anoms
        | _, _ => anoms) []

/-- One entry of `get_strong_patterns` (the `usual_order` string is
represented by its direction flag). -/
structure StrongPattern where
  entity_a : String
  entity_b : String
  strength : ℚ
  co_occurrences : ℕ
  avg_delay_seconds : ℚ
  a_first : Bool
deriving DecidableEq

/-- `MLPatternAnalyzer.get_strong_patterns(min_strength)`: filter then
stable sort by descending strength. -/
def MLState.get_strong_patterns (logF : ℕ → ℚ) (m : MLState)
    (min_strength : ℚ) : List StrongPattern :=
  (m.cross_sensor_patterns.foldl
    (fun acc pr =>
      let p := pr.2
      if min_strength ≤ correlation_strength logF p then
        acc ++ [{ entity_a := p.entity_a
                  entity_b := p.entity_b
                  strength := roundQ (correlation_strength logF p) 2
                  co_occurrences := p.co_occurrence_count
                  avg_delay_seconds := roundQ p.avg_time_delta_seconds 1
                  a_first := p.b_before_a_count < p.a_before_b_count }]
      else acc) []).mergeSort (fun x y => decide (y.strength ≤ x.strength))

/-- `MLPatternAnalyzer.prune_old_events(max_age_days)` (drops old events
from the log only). -/
def MLState.prune_old_events (m : MLState) (max_age_days : Int)
    (now : Timestamp) : MLState :=
  { m with events :=
      m.events.filter (fun e => now - max_age_days * 86400 ≤ e.timestamp) }

/-- Serialized `MLPatternAnalyzer` (the ML document). -/
structure MLDoc where
  events : List StateChangeEventDoc
  cross_sensor_patterns : Dict String CrossSensorPatternDoc
  samples_processed : Option ℕ
  contamination : Option ℚ
  cross_sensor_window_seconds : Option Int
  entity_indices : Dict String ℕ
  became_effective_at : Option Timestamp
  last_warmup : Option Timestamp
deriving DecidableEq

/-- `MLPatternAnalyzer.to_dict`. -/
def MLState.to_dict (m : MLState) : MLDoc :=
  { events := m.events.map StateChangeEvent.to_dict
    cross_sensor_patterns :=
      m.cross_sensor_patterns.map
        (fun (pr : (String × String) × CrossSensorPattern) =>
          (pr.1.1 ++ "|" ++ pr.1.2, pr.2.to_dict))
    samples_processed := some m.samples_processed
    contamination := some m.contamination
    cross_sensor_window_seconds := some m.cross_sensor_window
    entity_indices := m.entity_indices
    became_effective_at := m.became_effective_at
    last_warmup := m.last_warmup }

/-- Python `str.split(sep)` for a one-character separator, computed on the
underlying character list (exactly `str.split`'s semantics for such
separators). -/
def pySplit (sep : Char) (s : String) : List String :=
  (s.toList.splitOn sep).map List.asString

/-- The cross-sensor-pattern loading loop of `MLPatternAnalyzer.from_dict`:
keys are split on `"|"`; malformed keys are skipped. -/
def loadCrossPatterns (docPats : Dict String CrossSensorPatternDoc) :
    Dict (String × String) CrossSensorPattern :=
  docPats.foldl
    (fun (acc : Dict (String × String) CrossSensorPattern)
         (pr : String × CrossSensorPatternDoc) =>
      match pySplit '|' pr.1 with
      | [a, b] => ainsert acc (a, b) (CrossSensorPattern.from_dict pr.2)
      | _ => acc) []

/-- `MLPatternAnalyzer.from_dict(data, contamination,
cross_sensor_window_seconds)`; `now` is the load time (used by the
`train()` warm-up), `avail` the `ML_AVAILABLE` flag. -/
def MLState.from_dict (avail : Bool) (doc : MLDoc) (cont? : Option ℚ)
    (win? : Option Int) (now : Timestamp) : MLState :=
  let base := MLState.new avail
    (pyOrQ cont? (doc.contamination.getD (1/20)))
    (pyOrZ win? (doc.cross_sensor_window_seconds.getD 300))
  let m1 := { base with events := doc.events.map StateChangeEvent.from_dict }
  let m2 := { m1 with
    cross_sensor_patterns := loadCrossPatterns doc.cross_sensor_patterns }
  let m3 := { m2 with
    entity_indices := doc.entity_indices
    samples_processed := doc.samples_processed.getD 0
    became_effective_at := doc.became_effective_at
    last_warmup := doc.last_warmup }
  let m4 := { m3 with
    entity_last_change :=
      m3.events.foldl
        (fun (acc : Dict String Timestamp) (e : StateChangeEvent) =>
          ainsert acc e.entity_id e.timestamp) [] }
  if 100 ≤ m4.events.length then (m4.train now).2 else m4

/-- Modelled from the spec: `MLPatternAnalyzer.get_training_time_remaining`
is called by the coordinator but missing from the provided sources;
modelled as a total readout of the ML learning gate (trained AND
learning-period elapsed since the first event). -/
def MLState.get_training_time_remaining (m : MLState) (period_days : Int)
    (now : Timestamp) : TrainingInfo :=
  { complete :=
      m.is_trained &&
        (match m.first_event_time with
         | some fe => decide (period_days * 86400 ≤ now - fe)
         | none => false)
    days_remaining :=
      match m.first_event_time with
      | some fe => max 0 (period_days - daysBetween now fe)
      | none => period_days }

/-! ## Coordinator (coordinator.py) -/

/-- A Home Assistant state object `{state, attributes}`; attribute maps are
compared structurally (the events in question carry plain hashable
attribute values). -/
structure StateObj where
  state : String
  attributes : Dict String String
deriving DecidableEq

/-- A state-changed bus event as delivered to `_handle_state_changed`. -/
structure HAEvent where
  entity_id : String
  old_state : Option StateObj
  new_state : Option StateObj
deriving DecidableEq

/-- Persisted coordinator control-plane state (the statistical document's
`coordinator` part). -/
structure CoordStateDoc where
  last_notification_time : Option Timestamp
  last_notification_type : Option String
  last_welfare_status : Option String
  holiday_mode : Bool
  snooze_until : Option Timestamp
deriving DecidableEq

/-- The full statistical storage document written by `_save_data`. -/
structure StatDoc where
  analyzer : PatternAnalyzerDoc
  coordinator : CoordStateDoc
deriving DecidableEq

/-- `BehaviourMonitorCoordinator` state (configuration plus session
state). -/
structure Coordinator where
  analyzer : PatternAnalyzer
  ml_analyzer : MLState
  recent_anomalies : List AnomalyResult
  recent_ml_anomalies : List MLAnomalyResult
  recent_events : List StateChangeEvent
  last_welfare_status : Option String
  last_notification_time : Option Timestamp
  last_notification_type : Option String
  holiday_mode : Bool
  snooze_until : Option Timestamp
  enable_ml : Bool
  enable_notifications : Bool
  track_attributes : Bool
  monitored_entities : List String
  notify_services : List String
  retrain_period_days : Int
  ml_learning_period_days : Int
  cross_sensor_window : Int
deriving DecidableEq

/-- `BehaviourMonitorCoordinator.is_snoozed`. -/
def Coordinator.is_snoozed (c : Coordinator) (now : Timestamp) : Bool :=
  match c.snooze_until with
  | none => false
  | some su => now < su

/-- Body of `_handle_state_changed` after the holiday / membership /
None-state filters: the unchanged-state checks, statistical recording
(unless snoozed), recent-events window maintenance and ML recording
(unless snoozed). -/
def Coordinator.handleQualified (c : Coordinator) (now : Timestamp)
    (eid : String) (os ns : StateObj) : Option Coordinator :=
  if os.state = ns.state ∧ ¬c.track_attributes then some c
  else if os.state = ns.state ∧ os.attributes = ns.attributes then some c
  else
    let snoozed := c.is_snoozed now
    (if snoozed then some c.analyzer
     else c.analyzer.record_state_change eid now).map
      (fun an =>
        let c1 := { c with analyzer := an }
        if c1.enable_ml then
          let mlEv : StateChangeEvent := ⟨eid, now, some os.state, some ns.state⟩
          let cutoff := now - c1.cross_sensor_window * 2
          let re := (c1.recent_events ++ [mlEv]).filter
            (fun e => cutoff ≤ e.timestamp)
          let c2 := { c1 with recent_events := re }
          if ¬snoozed then
            let ml2 := c2.ml_analyzer.record_event eid now
              (some os.state) (some ns.state)
            { c2 with ml_analyzer := ml2 }
          else c2
        else c1)

/-- `BehaviourMonitorCoordinator._handle_state_changed`: the event
ingestion path (`none` models a raising `record_activity` on a malformed
loaded pattern; never reached on well-formed state). -/
def Coordinator.handle_state_changed (c : Coordinator) (now : Timestamp)
    (ev : HAEvent) : Option Coordinator :=
  if c.holiday_mode then some c
  else if ev.entity_id ∉ c.monitored_entities then some c
  else
    match ev.old_state, ev.new_state with
    | none, _ => some c
    | _, none => some c
    | some os, some ns => c.handleQualified now ev.entity_id os ns

/-- `BehaviourMonitorCoordinator._check_retrain`. -/
def Coordinator.check_retrain (c : Coordinator) (now : Timestamp) : Coordinator :=
  if ¬c.enable_ml then c
  else
    match c.ml_analyzer.last_trained with
    | none =>
        if 100 ≤ c.ml_analyzer.samples_processed then
          { c with ml_analyzer := (c.ml_analyzer.train now).2 }
        else c
    | some lt =>
        if c.retrain_period_days * 86400 < now - lt then
          { c with ml_analyzer :=
              ((c.ml_analyzer.prune_old_events (c.retrain_period_days * 2) now).train now).2 }
        else c

/-- `BehaviourMonitorCoordinator._save_data`'s statistical document. -/
def Coordinator.save_data_doc (c : Coordinator) : StatDoc :=
  { analyzer := c.analyzer.to_dict
    coordinator :=
      { last_notification_time := c.last_notification_time
        last_notification_type := c.last_notification_type
        last_welfare_status := c.last_welfare_status
        holiday_mode := c.holiday_mode
        snooze_until := c.snooze_until } }

/-- External side effects of the tick, recorded as a trace: persistence and
notification delivery are external collaborators per the spec. -/
inductive ExtCall where
  | saveStat (doc : StatDoc)
  | saveML (doc : MLDoc)
  | notifyStat (n : ℕ) (highest : String)
  | notifyML (n : ℕ)
  | notifyWelfare (status : String)
  | notifySink (service : String)
deriving DecidableEq

/-- The `highest_severity` loop of `_send_notification`
(`severity_order.index` raises on an unknown severity, hence `Option`). -/
def maxSeverity? (anoms : List AnomalyResult) : Option String :=
  anoms.foldlM
    (fun (highest : String) a =>
      (listIndex? severityOrder a.severity).bind
        (fun ia =>
          (listIndex? severityOrder highest).map
            (fun ih => if ia < ih then a.severity else highest))) "normal"

/-- `_send_mobile_notification`: one trace entry per well-formed sink id
(`"domain.service"`); malformed ids are skipped, delivery exceptions are
caught — neither aborts the tick. -/
def sinkCalls (services : List String) : List ExtCall :=
  services.foldl
    (fun acc sv =>
      if 2 ≤ (pySplit '.' sv).length then acc ++ [ExtCall.notifySink sv]
      else acc) []

/-- `BehaviourMonitorCoordinator._send_notification` (statistical). -/
def Coordinator.send_notification (c : Coordinator) (now : Timestamp)
    (anoms : List AnomalyResult) : Option (Coordinator × List ExtCall) :=
  if anoms = [] then some (c, [])
  else
    (maxSeverity? anoms).map
      (fun highest =>
        ({ c with last_notification_time := some now
                  last_notification_type := some "statistical" },
         ExtCall.notifyStat anoms.length highest :: sinkCalls c.notify_services))

/-- `BehaviourMonitorCoordinator._send_ml_notification`. -/
def Coordinator.send_ml_notification (c : Coordinator) (now : Timestamp)
    (anoms : List MLAnomalyResult) : Coordinator × List ExtCall :=
  if anoms = [] then (c, [])
  else
    ({ c with last_notification_time := some now
              last_notification_type := some "ml" },
     ExtCall.notifyML anoms.length :: sinkCalls c.notify_services)

/-- `BehaviourMonitorCoordinator._send_welfare_notification`: early return
for OK/CHECK levels; otherwise notifies (it re-reads `get_entity_status`
for the message body, which can raise on malformed state). -/
def Coordinator.send_welfare_notification (s : SqrtFn) (c : Coordinator)
    (now : Timestamp) (w : WelfareStatus) : Option (Coordinator × List ExtCall) :=
  if w.status ≠ "alert" ∧ w.status ≠ "concern" then some (c, [])
  else
    (c.analyzer.get_entity_status s now).map
      (fun _ =>
        ({ c with last_notification_time := some now
                  last_notification_type := some "welfare" },
         ExtCall.notifyWelfare w.status :: sinkCalls c.notify_services))

/-- The data dictionary returned by `_async_update_data` (presentational
string fields omitted; the combined `anomalies` list is represented by its
two components). -/
structure TickData where
  last_activity : Option Timestamp
  activity_score : ℚ
  anomaly_detected : Bool
  confidence : ℚ
  daily_count : ℕ
  stat_anomalies : List AnomalyResult
  ml_anomalies : List MLAnomalyResult
  ml_enabled : Bool
  ml_trained : Bool
  ml_sample_count : ℕ
  ml_last_trained : Option Timestamp
  cross_sensor_patterns : List StrongPattern
  stat_training : TrainingInfo
  ml_training : Option TrainingInfo
  welfare : WelfareStatus
  routine : RoutineProgress
  activity_context : ActivityContext
  entity_status : List EntityStatus
  last_notification_time : Option Timestamp
  last_notification_type : Option String
  holiday_mode : Bool
  snooze_active : Bool
  snooze_until : Option Timestamp
deriving DecidableEq

/-- The notification block of `_async_update_data` (statistical, ML and
welfare notifications, in source order), taken after the anomaly /
retrain phase produced the working coordinator `c4`, the two anomaly
lists and the two completeness gates. -/
def Coordinator.notifyPhase (s : SqrtFn) (c4 : Coordinator) (now : Timestamp)
    (statAnoms : List AnomalyResult) (mlAnoms : List MLAnomalyResult)
    (statComplete mlComplete : Bool) : Option (Coordinator × List ExtCall) :=
  (if statComplete && statAnoms ≠ [] then c4.send_notification now statAnoms
   else some (c4, [])).bind
    (fun p1 =>
      let p2 :=
        if mlComplete && mlAnoms ≠ [] then p1.1.send_ml_notification now mlAnoms
        else (p1.1, [])
      if statComplete || mlComplete then
        (p2.1.analyzer.get_welfare_status s now).bind
          (fun w =>
            if some w.status ≠ p2.1.last_welfare_status then
              (p2.1.send_welfare_notification s now w).map
                (fun p3 =>
                  ({ p3.1 with last_welfare_status := some w.status },
                   p1.2 ++ p2.2 ++ p3.2))
            else some (p2.1, p1.2 ++ p2.2))
      else some (p2.1, p1.2 ++ p2.2))

/-- The tail of `_async_update_data`: persist the snapshot and recompute
the elder-care metrics into the returned data dictionary. -/
def Coordinator.tickData (s : SqrtFn) (logF : ℕ → ℚ) (c7 : Coordinator)
    (now : Timestamp) (statAnoms : List AnomalyResult)
    (mlAnoms : List MLAnomalyResult) (prevTr : List ExtCall) :
    Option (Coordinator × TickData × List ExtCall) :=
  let saveTr :=
    ExtCall.saveStat c7.save_data_doc ::
      (if c7.enable_ml then [ExtCall.saveML c7.ml_analyzer.to_dict] else [])
  (c7.analyzer.calculate_activity_score s now).bind
    (fun ascore =>
      (c7.analyzer.get_welfare_status s now).bind
        (fun w2 =>
          (c7.analyzer.get_routine_progress now).bind
            (fun rp =>
              (c7.analyzer.get_time_since_activity_context now).bind
                (fun ac =>
                  (c7.analyzer.get_entity_status s now).map
                    (fun es =>
                              (c7,
                               { last_activity := c7.analyzer.get_last_activity_time
                                 activity_score := ascore
                                 anomaly_detected :=
                                   decide (statAnoms ≠ [] ∨ mlAnoms ≠ [])
                                 confidence := c7.analyzer.get_confidence now
                                 daily_count := c7.analyzer.get_total_daily_count now
                                 stat_anomalies := statAnoms
                                 ml_anomalies := mlAnoms
                                 ml_enabled := c7.enable_ml
                                 ml_trained :=
                                   if c7.enable_ml then c7.ml_analyzer.is_trained
                                   else false
                                 ml_sample_count :=
                                   if c7.enable_ml then c7.ml_analyzer.samples_processed
                                   else 0
                                 ml_last_trained :=
                                   if c7.enable_ml then c7.ml_analyzer.last_trained
                                   else none
                                 cross_sensor_patterns :=
                                   if c7.enable_ml then
                                     c7.ml_analyzer.get_strong_patterns logF (3/10)
                                   else []
                                 stat_training :=
                                   c7.analyzer.get_training_time_remaining now
                                 ml_training :=
                                   if c7.enable_ml then
                                     some (c7.ml_analyzer.get_training_time_remaining
                                       c7.ml_learning_period_days now)
                                   else none
                                 welfare := w2
                                 routine := rp
                                 activity_context := ac
                                 entity_status := es
                                 last_notification_time := c7.last_notification_time
                                 last_notification_type := c7.last_notification_type
                                 holiday_mode := c7.holiday_mode
                                 snooze_active := c7.is_snoozed now
                                 snooze_until := c7.snooze_until },
                               prevTr ++ saveTr))))))

/-- The head of `_async_update_data`: statistical anomaly detection
(suppressed on holiday/snooze), retrain decision and ML detection.
Returns the working coordinator, the two anomaly lists and the two
completeness gates that drive the notification block. -/
def Coordinator.anomalyPhase (s : SqrtFn)
    (score : List Features → Features → ℚ) (logF : ℕ → ℚ)
    (c : Coordinator) (now : Timestamp) :
    Option (Coordinator × List AnomalyResult × List MLAnomalyResult
      × Bool × Bool) :=
  let skip := c.holiday_mode || c.is_snoozed now
  (if skip then some [] else c.analyzer.check_for_anomalies s now none).bind
    (fun statAnoms =>
      let c1 := if statAnoms ≠ [] then { c with recent_anomalies := statAnoms } else c
      let c2 := if c1.enable_ml && !skip then c1.check_retrain now else c1
      let mlPair : List MLAnomalyResult × Coordinator :=
        if c2.enable_ml && !skip && c2.ml_analyzer.is_trained then
          let evs := c2.recent_events.drop (c2.recent_events.length - 10)
          let folded := evs.foldl
            (fun (acc : List MLAnomalyResult × MLState) e =>
              let rm := acc.2.check_anomaly score e
              ((match rm.1 with
                | some r => acc.1 ++ [r]
                | none => acc.1), rm.2)) ([], c2.ml_analyzer)
          let cross := folded.2.check_cross_sensor_anomalies logF c2.recent_events now
          (folded.1 ++ cross, { c2 with ml_analyzer := folded.2 })
        else ([], c2)
      let mlAnoms := mlPair.1
      let c3 := mlPair.2
      let c4 :=
        if c3.enable_ml && !skip && mlAnoms ≠ [] then
          { c3 with recent_ml_anomalies := mlAnoms }
        else c3
      let statComplete := c4.analyzer.is_learning_complete now
      let mlComplete : Bool :=
        c4.enable_ml && c4.ml_analyzer.is_trained &&
          (match c4.ml_analyzer.first_event_time with
           | some fe => decide (c4.ml_learning_period_days * 86400 ≤ now - fe)
           | none => false)
      some (c4, statAnoms, mlAnoms, statComplete, mlComplete))

/-- `BehaviourMonitorCoordinator._async_update_data`: the periodic tick.
Returns the updated coordinator, the data dictionary and the trace of
external calls; `none` models an uncaught exception. -/
def Coordinator.tick (s : SqrtFn) (score : List Features → Features → ℚ)
    (logF : ℕ → ℚ) (c : Coordinator) (now : Timestamp) :
    Option (Coordinator × TickData × List ExtCall) :=
  let skip := c.holiday_mode || c.is_snoozed now
  (Coordinator.anomalyPhase s score logF c now).bind
    (fun q =>
      (if q.1.enable_notifications && !skip then
        Coordinator.notifyPhase s q.1 now q.2.1 q.2.2.1 q.2.2.2.1 q.2.2.2.2
       else some (q.1, [])).bind
        (fun pn =>
          Coordinator.tickData s logF pn.1 now q.2.1 q.2.2.1 pn.2))

/-! ## Claim C5 -/

/-- Claim C5: for every analyzer state and every (possibly empty)
current-interval activity input, `check_for_anomalies` returns the empty
list whenever `is_learning_complete()` is false — no anomaly is ever
reported before the learning period completes. -/
theorem C5_empty_before_learning_complete (s : SqrtFn) (a : PatternAnalyzer)
    (now : Timestamp) (cia? : Option (Dict String ℕ))
    (h : a.is_learning_complete now = false) :
    a.check_for_anomalies s now cia? = some [] := by
  unfold PatternAnalyzer.check_for_anomalies
  simp [h]

/-- Witness for C5 at a concrete input: a fresh analyzer (no patterns) is
not learning-complete and the detector returns the empty list. -/
theorem C5_empty_before_learning_complete_witness :
    (PatternAnalyzer.new 2 7).is_learning_complete 1000 = false ∧
      (PatternAnalyzer.new 2 7).check_for_anomalies sqrtStub 1000
        (some [("sensor.a", 5)]) = some [] := by
  have h : (PatternAnalyzer.new 2 7).is_learning_complete 1000 = false := by
    norm_num [PatternAnalyzer.is_learning_complete,
      PatternAnalyzer.get_confidence, PatternAnalyzer.new]
  exact ⟨h, C5_empty_before_learning_complete sqrtStub _ 1000 _ h⟩

/-! ## Claim C7 -/

theorem foldl_minObsStep_mem (l : List (String × EntityPattern))
    (acc : Option Timestamp) (m : Timestamp)
    (h : l.foldl minObsStep acc = some m) :
    acc = some m ∨
      ∃ pr ∈ l, (pr : String × EntityPattern).2.first_observation = some m := by
  induction l generalizing acc with
  | nil => left; exact h
  | cons hd rest ih =>
      simp only [List.foldl_cons] at h
      rcases ih _ h with hacc | ⟨pr, hpr, hfo⟩
      · cases hfirst : hd.2.first_observation with
        | none =>
            left
            have hstep : minObsStep acc hd = acc := by
              unfold minObsStep
              rw [hfirst]
            rwa [hstep] at hacc
        | some t =>
            cases acc with
            | none =>
                right
                have hstep : minObsStep none hd = some t := by
                  unfold minObsStep
                  rw [hfirst]
                rw [hstep] at hacc
                exact ⟨hd, List.mem_cons_self _ _, by rw [hfirst, hacc]⟩
            | some mm =>
                have hstep : minObsStep (some mm) hd
                    = if t < mm then some t else some mm := by
                  unfold minObsStep
                  rw [hfirst]
                rw [hstep] at hacc
                by_cases hlt : t < mm
                · rw [if_pos hlt] at hacc
                  right
                  exact ⟨hd, List.mem_cons_self _ _, by rw [hfirst, hacc]⟩
                · rw [if_neg hlt] at hacc
                  left
                  exact hacc
      · right
        exact ⟨pr, List.mem_cons_of_mem _ hpr, hfo⟩

theorem daysBetween_nonneg (now m : Int) (h : m ≤ now) :
    0 ≤ daysBetween now m := by
  unfold daysBetween
  rw [Int.fdiv_eq_ediv _ (by norm_num : (0:Int) ≤ 86400)]
  apply Int.ediv_nonneg
  · omega
  · norm_num

theorem daysBetween_mono (m now now2 : Int) (h : now ≤ now2) :
    daysBetween now m ≤ daysBetween now2 m := by
  unfold daysBetween
  rw [Int.fdiv_eq_ediv _ (by norm_num : (0:Int) ≤ 86400),
      Int.fdiv_eq_ediv _ (by norm_num : (0:Int) ≤ 86400)]
  apply Int.ediv_le_ediv
  · norm_num
  · omega

/-- Claim C7 (amended): `get_confidence()` equals
`min(100, days_since_earliest_first_observation / learning_period_days *
100)` with 0 when there are no entities or no observations; for a positive
learning period it is bounded above by 100 and monotonically non-decreasing
in wall-clock time, and it is bounded below by 0 PROVIDED no entity's
`first_observation` lies in the future (true of every state produced by
recording).  The unconditional `[0, 100]` clamp of the original claim fails
on a loaded state with a future `first_observation` (see the
counterexample). -/
theorem C7_confidence_formula_bounds_monotone (a : PatternAnalyzer)
    (now now2 : Timestamp) (hL : 0 < a.learning_period_days)
    (hpast : ∀ pr ∈ a.patterns,
      ((pr : String × EntityPattern).2.first_observation.getD now) ≤ now)
    (hle : now ≤ now2) :
    a.get_confidence now =
      (if a.patterns = [] then 0
       else
         match a.minFirstObs with
         | none => 0
         | some m =>
             min 100 ((daysBetween now m : ℚ) /
               (a.learning_period_days : ℚ) * 100)) ∧
    0 ≤ a.get_confidence now ∧ a.get_confidence now ≤ 100 ∧
    a.get_confidence now ≤ a.get_confidence now2 := by
  have hLq : (0 : ℚ) < (a.learning_period_days : ℚ) := by
    exact_mod_cast hL
  refine ⟨rfl, ?_, ?_, ?_⟩
  · unfold PatternAnalyzer.get_confidence
    by_cases hp : a.patterns = []
    · simp [hp]
    · simp only [hp, if_false]
      cases hobs : a.minFirstObs with
      | none => norm_num
      | some m =>
          have hmem := foldl_minObsStep_mem a.patterns none m hobs
          rcases hmem with habs | ⟨pr, hpr, hfo⟩
          · cases habs
          · have hmle : m ≤ now := by
              have := hpast pr hpr
              rw [hfo] at this
              exact this
            have hd : (0 : ℚ) ≤ (daysBetween now m : ℚ) := by
              exact_mod_cast daysBetween_nonneg now m hmle
            have : (0 : ℚ) ≤ (daysBetween now m : ℚ) /
                (a.learning_period_days : ℚ) * 100 := by
              positivity
            exact le_min (by norm_num) this
  · unfold PatternAnalyzer.get_confidence
    by_cases hp : a.patterns = []
    · simp [hp]
    · simp only [hp, if_false]
      cases hobs : a.minFirstObs with
      | none => norm_num
      | some m => exact min_le_left _ _
  · unfold PatternAnalyzer.get_confidence
    by_cases hp : a.patterns = []
    · simp [hp]
    · simp only [hp, if_false]
      cases hobs : a.minFirstObs with
      | none => exact le_refl 0
      | some m =>
          have hdm : (daysBetween now m : ℚ) ≤ (daysBetween now2 m : ℚ) := by
            exact_mod_cast daysBetween_mono m now now2 hle
          refine min_le_min (le_refl 100) ?_
          have := (div_le_div_iff_of_pos_right hLq).mpr hdm
          exact mul_le_mul_of_nonneg_right this (by norm_num)

/-- Witness for C7 at a concrete input: one entity first observed at the
epoch, learning period 7 days, evaluated 10 and 11 days later. -/
theorem C7_confidence_formula_bounds_monotone_witness :
    (0 : Int) <
        ({ PatternAnalyzer.new 2 7 with
            patterns := [("sensor.a",
              { EntityPattern.new "sensor.a" with
                  first_observation := some 0 })] } :
          PatternAnalyzer).learning_period_days ∧
      (0 ≤ ({ PatternAnalyzer.new 2 7 with
            patterns := [("sensor.a",
              { EntityPattern.new "sensor.a" with
                  first_observation := some 0 })] } :
          PatternAnalyzer).get_confidence 864000 ∧
        ({ PatternAnalyzer.new 2 7 with
            patterns := [("sensor.a",
              { EntityPattern.new "sensor.a" with
                  first_observation := some 0 })] } :
          PatternAnalyzer).get_confidence 864000 ≤ 100) := by
  have h := C7_confidence_formula_bounds_monotone
    ({ PatternAnalyzer.new 2 7 with
        patterns := [("sensor.a",
          { EntityPattern.new "sensor.a" with
              first_observation := some 0 })] })
    864000 950400 (by decide) (by decide) (by decide)
  exact ⟨by decide, h.2.1, h.2.2.1⟩

/-- The state used to refute the original C7 clamp: a pattern restored with
a `first_observation` 30 days in the future. -/
def c7FutureAnalyzer : PatternAnalyzer :=
  { PatternAnalyzer.new 2 7 with
      patterns := [("sensor.a",
        { EntityPattern.new "sensor.a" with
            first_observation := some 2592000 })] }

/-- Counterexample to C7 as stated: at day 10, an analyzer whose earliest
(restored) `first_observation` is at day 30 has confidence
`min(100, -20/7*100) < 0`, outside the claimed [0, 100] range. -/
theorem C7_counterexample : c7FutureAnalyzer.get_confidence 864000 < 0 := by
  have hobs : c7FutureAnalyzer.minFirstObs = some 2592000 := by decide
  have hne : c7FutureAnalyzer.patterns ≠ [] := by decide
  unfold PatternAnalyzer.get_confidence
  rw [if_neg hne, hobs]
  have hfd : daysBetween 864000 2592000 = -20 := by decide
  have hlp : c7FutureAnalyzer.learning_period_days = 7 := by decide
  show min 100 ((daysBetween 864000 2592000 : ℚ) /
      (c7FutureAnalyzer.learning_period_days : ℚ) * 100) < 0
  rw [hfd, hlp]
  norm_num

/-! ## Option-mapM lemmas -/

theorem mapM_option_isSome {α β : Type} (f : α → Option β) (l : List α)
    (h : ∀ x ∈ l, (f x).isSome) : (l.mapM f).isSome := by
  induction l with
  | nil => rfl
  | cons a rest ih =>
      obtain ⟨b, hb⟩ := Option.isSome_iff_exists.mp (h a (List.mem_cons_self _ _))
      obtain ⟨bs, hbs⟩ := Option.isSome_iff_exists.mp
        (ih (fun x hx => h x (List.mem_cons_of_mem _ hx)))
      rw [List.mapM_cons, hb, hbs]
      rfl

theorem mapM_option_mem {α β : Type} (f : α → Option β) (l : List α)
    (ys : List β) (h : l.mapM f = some ys) (x : α) (hx : x ∈ l) (y : β)
    (hfx : f x = some y) : y ∈ ys := by
  induction l generalizing ys with
  | nil => cases hx
  | cons a rest ih =>
      rw [List.mapM_cons] at h
      cases hfa : f a with
      | none =>
          rw [hfa] at h
          exact Option.noConfusion h
      | some b =>
          rw [hfa] at h
          cases hrest : rest.mapM f with
          | none =>
              rw [hrest] at h
              exact Option.noConfusion h
          | some bs =>
              rw [hrest] at h
              have h2 : some (b :: bs) = some ys := h
              cases h2
              rcases List.mem_cons.mp hx with he | hm
              · subst he
                rw [hfa] at hfx
                cases hfx
                exact List.mem_cons_self _ _
              · exact List.mem_cons_of_mem _ (ih bs hrest hm)

/-! ## Claim C1 -/


/-- Evaluation of the detector's flag decision on a zero-variance,
nonzero-mean slot (for a nonnegative threshold, as all configured
sensitivities are): flagged with `inf` / `threshold + 1` when the actual
count differs from the mean, nothing when it equals it. -/
theorem anomalyDecision_zero_var (threshold : ℚ) (now : Timestamp)
    (eid : String) (mean actual : ℚ)
    (hmean : mean ≠ 0) (hthr : 0 ≤ threshold) :
    anomalyDecision threshold now eid mean 0 actual =
      (if actual ≠ mean then
        some
          { is_anomaly := true
            entity_id := eid
            anomaly_type :=
              if mean < actual then "unusual_activity" else "unusual_inactivity"
            z_score := if 0 < actual then ZVal.inf else ZVal.fin (threshold + 1)
            expected_mean := mean
            expected_std := 0
            actual_value := actual
            timestamp := now
            severity := getSeverity
              (if 0 < actual then ZVal.inf else ZVal.fin (threshold + 1)) }
       else none) := by
  have hz : detectorZ threshold mean 0 actual =
      (if actual ≠ mean then
        (if 0 < actual then ZVal.inf else ZVal.fin (threshold + 1))
       else ZVal.fin 0) := by
    unfold detectorZ
    rw [if_neg (lt_irrefl (0 : ℚ))]
  unfold anomalyDecision
  rw [if_neg (fun hc => hmean hc.2), hz]
  by_cases hne : actual ≠ mean
  · rw [if_pos hne, if_pos hne]
    by_cases hpos : 0 < actual
    · rw [if_pos hpos]
      rfl
    · rw [if_neg hpos]
      have hgt : (ZVal.fin (threshold + 1)).gtQ threshold = true := by
        unfold ZVal.gtQ
        exact decide_eq_true (lt_add_one threshold)
      simp [hgt]
  · rw [if_neg hne, if_neg hne]
    have hgt : (ZVal.fin 0).gtQ threshold = false := by
      unfold ZVal.gtQ
      exact decide_eq_false (not_lt.mpr hthr)
    simp [hgt]

/-- Claim C1 (amended): in `check_for_anomalies`, for every monitored
entity whose bucket for the current (weekday, interval) has
`std_dev == 0` and `mean != 0` (and for the configured nonnegative
sensitivity thresholds), IF the actual current-interval count differs from
the mean then the computed z-score is `+inf` when the count is positive and
`sensitivity_threshold + 1` when it is 0, both exceed the threshold, and
the entity is flagged in the returned list; but when the actual count
EQUALS the (nonzero) mean, the code computes `z = 0` and does NOT flag the
entity — the original "always flagged for every actual count" fails there
(see the counterexample). -/
theorem C1_zero_variance_flagging (s : SqrtFn) (a : PatternAnalyzer)
    (now : Timestamp) (cia : Dict String ℕ) (eid : String) (p : EntityPattern)
    (b : TimeBucket) (l : List AnomalyResult)
    (hcomp : a.is_learning_complete now = true)
    (hres : a.check_for_anomalies s now (some cia) = some l)
    (hmem : (eid, p) ∈ a.patterns)
    (hb : p.getBucket? now = some b)
    (hstd : b.stdDevSq = 0) (hmean : b.mean ≠ 0)
    (hthr : 0 ≤ a.sensitivity_threshold) :
    ((((alookup cia eid).getD 0 : ℕ) : ℚ) ≠ b.mean →
      ∃ r ∈ l, r.entity_id = eid ∧
        r.z_score = (if 0 < (((alookup cia eid).getD 0 : ℕ) : ℚ) then ZVal.inf
                     else ZVal.fin (a.sensitivity_threshold + 1)) ∧
        r.z_score.gtQ a.sensitivity_threshold = true) ∧
    ((((alookup cia eid).getD 0 : ℕ) : ℚ) = b.mean →
      checkEntityAnomaly s a.sensitivity_threshold now cia eid p = some none) := by
  have hf0 : s.f b.stdDevSq = 0 := by
    rw [hstd]
    exact (s.zero_iff 0 (le_refl 0)).mpr rfl
  have hexp : p.get_expected_activity s now = some (b.mean, 0) := by
    unfold EntityPattern.get_expected_activity
    rw [hb]
    simp [hf0]
  have hentry : checkEntityAnomaly s a.sensitivity_threshold now cia eid p =
      some (anomalyDecision a.sensitivity_threshold now eid b.mean 0
        (((alookup cia eid).getD 0 : ℕ) : ℚ)) := by
    unfold checkEntityAnomaly
    rw [hexp]
    rfl
  have hdec := anomalyDecision_zero_var a.sensitivity_threshold now eid b.mean
    (((alookup cia eid).getD 0 : ℕ) : ℚ) hmean hthr
  constructor
  · intro hne
    rw [if_pos hne] at hdec
    unfold PatternAnalyzer.check_for_anomalies at hres
    rw [if_pos hcomp] at hres
    obtain ⟨ys, hmapM, hfil⟩ := Option.map_eq_some'.mp hres
    have hentry2 : checkEntityAnomaly s a.sensitivity_threshold now cia eid p =
        some (some
          { is_anomaly := true
            entity_id := eid
            anomaly_type :=
              if b.mean < (((alookup cia eid).getD 0 : ℕ) : ℚ) then
                "unusual_activity"
              else "unusual_inactivity"
            z_score :=
              if 0 < (((alookup cia eid).getD 0 : ℕ) : ℚ) then ZVal.inf
              else ZVal.fin (a.sensitivity_threshold + 1)
            expected_mean := b.mean
            expected_std := 0
            actual_value := (((alookup cia eid).getD 0 : ℕ) : ℚ)
            timestamp := now
            severity := getSeverity
              (if 0 < (((alookup cia eid).getD 0 : ℕ) : ℚ) then ZVal.inf
               else ZVal.fin (a.sensitivity_threshold + 1)) }) := by
      rw [hentry, hdec]
    have hyin := mapM_option_mem _ a.patterns ys hmapM (eid, p) hmem _ hentry2
    rw [← hfil]
    refine ⟨_, List.mem_filterMap.mpr ⟨_, hyin, rfl⟩, rfl, rfl, ?_⟩
    · by_cases hpos : 0 < (((alookup cia eid).getD 0 : ℕ) : ℚ)
      · rw [if_pos hpos]
        rfl
      · rw [if_neg hpos]
        unfold ZVal.gtQ
        exact decide_eq_true (lt_add_one _)
  · intro heq
    rw [hentry]
    rw [if_neg (fun hc => hc heq)] at hdec
    rw [hdec]

/-- The pattern used in the C1 concrete instances: bucket (Fri, 00:00) has
one observation of 1.0, so mean = 1 and std_dev = 0. -/
def c1Pattern : EntityPattern :=
  { EntityPattern.new "sensor.a" with
      day_buckets := ainsert (ensureDays []) 4 (initBuckets.set 0 ⟨1, 1, 1⟩)
      first_observation := some 0 }

/-- The analyzer used in the C1 concrete instances: one entity, threshold
2.0, learning period 7 days, first observation at the epoch. -/
def c1Analyzer : PatternAnalyzer :=
  { PatternAnalyzer.new 2 7 with patterns := [("sensor.a", c1Pattern)] }

theorem c1Analyzer_complete : c1Analyzer.is_learning_complete 691200 = true := by
  have hobs : c1Analyzer.minFirstObs = some 0 := by decide
  have hne : c1Analyzer.patterns ≠ [] := by decide
  have hd : daysBetween 691200 0 = 8 := by decide
  have hconf : c1Analyzer.get_confidence 691200 = 100 := by
    unfold PatternAnalyzer.get_confidence
    rw [if_neg hne, hobs]
    show min 100 ((daysBetween 691200 0 : ℚ) /
        (c1Analyzer.learning_period_days : ℚ) * 100) = 100
    rw [hd, show c1Analyzer.learning_period_days = 7 from by decide]
    rw [min_eq_left (by norm_num)]
  unfold PatternAnalyzer.is_learning_complete
  rw [hconf]
  norm_num

theorem c1Pattern_bucket : c1Pattern.getBucket? 691200 = some ⟨1, 1, 1⟩ := by
  decide

theorem c1Pattern_exp :
    c1Pattern.get_expected_activity sqrtStub 691200 = some (1, 0) := by
  unfold EntityPattern.get_expected_activity
  rw [c1Pattern_bucket]
  have hm : (⟨1, 1, 1⟩ : TimeBucket).mean = 1 := by
    unfold TimeBucket.mean
    norm_num
  have hs : (⟨1, 1, 1⟩ : TimeBucket).stdDevSq = 0 := rfl
  simp [hm, hs, sqrtStub]

theorem c1_eval_equal_actual :
    c1Analyzer.check_for_anomalies sqrtStub 691200
      (some [("sensor.a", 1)]) = some [] := by
  have hact : ((((alookup ([("sensor.a", 1)] : Dict String ℕ) "sensor.a").getD 0
      : ℕ)) : ℚ) = 1 := by
    norm_num [alookup]
  have hentry : checkEntityAnomaly sqrtStub 2 691200 [("sensor.a", 1)]
      "sensor.a" c1Pattern = some none := by
    unfold checkEntityAnomaly
    rw [c1Pattern_exp]
    have hdec := anomalyDecision_zero_var 2 691200 "sensor.a" 1
      ((((alookup ([("sensor.a", 1)] : Dict String ℕ) "sensor.a").getD 0
        : ℕ)) : ℚ) (by norm_num) (by norm_num)
    rw [hact] at hdec
    rw [if_neg (by norm_num)] at hdec
    simp only [Option.map_some']
    exact congrArg some hdec
  have hstep : c1Analyzer.check_for_anomalies sqrtStub 691200
      (some [("sensor.a", 1)]) =
      ((List.mapM
        (fun pr => checkEntityAnomaly sqrtStub 2 691200 [("sensor.a", 1)]
          pr.1 pr.2) [("sensor.a", c1Pattern)]).map
        (fun l => l.filterMap id)) := by
    unfold PatternAnalyzer.check_for_anomalies
    rw [if_pos c1Analyzer_complete]
    exact rfl
  rw [hstep, List.mapM_cons, hentry]
  rfl

/-- Counterexample to C1 as stated: learning is complete, the current
bucket has std_dev 0 and mean 1 (nonzero), the actual current-interval
count is 1 (> 0, so the claim predicts z = +inf and a mandatory flag), yet
the detector flags nothing because the actual count equals the mean. -/
theorem C1_counterexample :
    c1Analyzer.is_learning_complete 691200 = true ∧
    c1Pattern.getBucket? 691200 = some ⟨1, 1, 1⟩ ∧
    (⟨1, 1, 1⟩ : TimeBucket).stdDevSq = 0 ∧
    (⟨1, 1, 1⟩ : TimeBucket).mean = 1 ∧
    (alookup ([("sensor.a", 1)] : Dict String ℕ) "sensor.a").getD 0 = 1 ∧
    c1Analyzer.check_for_anomalies sqrtStub 691200
      (some [("sensor.a", 1)]) = some [] := by
  refine ⟨c1Analyzer_complete, c1Pattern_bucket, rfl, ?_, by decide,
    c1_eval_equal_actual⟩
  unfold TimeBucket.mean
  norm_num

/-- The anomaly list produced in the C1 witness run (actual count 0 against
mean 1 with zero variance: flagged at `threshold + 1 = 3`). -/
def c1FlagList : List AnomalyResult :=
  [{ is_anomaly := true
     entity_id := "sensor.a"
     anomaly_type := "unusual_inactivity"
     z_score := ZVal.fin (2 + 1)
     expected_mean := 1
     expected_std := 0
     actual_value := 0
     timestamp := 691200
     severity := getSeverity (ZVal.fin (2 + 1)) }]

theorem c1_eval_zero_actual :
    c1Analyzer.check_for_anomalies sqrtStub 691200 (some []) =
      some c1FlagList := by
  have hact : ((((alookup ([] : Dict String ℕ) "sensor.a").getD 0 : ℕ)) : ℚ)
      = 0 := by
    norm_num [alookup]
  have hdec := anomalyDecision_zero_var 2 691200 "sensor.a" 1 0
    (by norm_num) (by norm_num)
  rw [if_pos (by norm_num : (0 : ℚ) ≠ 1)] at hdec
  rw [if_neg (by norm_num : ¬(1 : ℚ) < 0)] at hdec
  rw [if_neg (by norm_num : ¬(0 : ℚ) < 0)] at hdec
  have hentry : checkEntityAnomaly sqrtStub 2 691200 [] "sensor.a" c1Pattern
      = some (some
        { is_anomaly := true
          entity_id := "sensor.a"
          anomaly_type := "unusual_inactivity"
          z_score := ZVal.fin (2 + 1)
          expected_mean := 1
          expected_std := 0
          actual_value := 0
          timestamp := 691200
          severity := getSeverity (ZVal.fin (2 + 1)) }) := by
    unfold checkEntityAnomaly
    rw [c1Pattern_exp]
    simp only [Option.map_some']
    rw [hact]
    exact congrArg some hdec
  have hstep : c1Analyzer.check_for_anomalies sqrtStub 691200 (some []) =
      ((List.mapM
        (fun pr => checkEntityAnomaly sqrtStub 2 691200 [] pr.1 pr.2)
        [("sensor.a", c1Pattern)]).map (fun l => l.filterMap id)) := by
    unfold PatternAnalyzer.check_for_anomalies
    rw [if_pos c1Analyzer_complete]
    exact rfl
  rw [hstep, List.mapM_cons, hentry]
  rfl

/-- Witness for C1 at a concrete input: with actual count 0 against mean 1
and zero variance (threshold 2), the detector flags the entity with z-score
`threshold + 1` exceeding the threshold. -/
theorem C1_zero_variance_flagging_witness :
    c1Analyzer.is_learning_complete 691200 = true ∧
    ((((alookup ([] : Dict String ℕ) "sensor.a").getD 0 : ℕ)) : ℚ) ≠
      (⟨1, 1, 1⟩ : TimeBucket).mean ∧
    ∃ r ∈ c1FlagList, r.entity_id = "sensor.a" ∧
      r.z_score.gtQ c1Analyzer.sensitivity_threshold = true := by
  have hmean1 : (⟨1, 1, 1⟩ : TimeBucket).mean = 1 := by
    unfold TimeBucket.mean
    norm_num
  have hne : ((((alookup ([] : Dict String ℕ) "sensor.a").getD 0 : ℕ)) : ℚ) ≠
      (⟨1, 1, 1⟩ : TimeBucket).mean := by
    rw [hmean1]
    norm_num [alookup]
  have hmeanNe : (⟨1, 1, 1⟩ : TimeBucket).mean ≠ 0 := by
    rw [hmean1]
    norm_num
  have h := (C1_zero_variance_flagging sqrtStub c1Analyzer 691200 []
    "sensor.a" c1Pattern ⟨1, 1, 1⟩ c1FlagList c1Analyzer_complete
    c1_eval_zero_actual (List.mem_singleton.mpr rfl) c1Pattern_bucket rfl
    hmeanNe (by norm_num : (0 : ℚ) ≤ 2)).1 hne
  obtain ⟨r, hr, hid, _, hgt⟩ := h
  exact ⟨c1Analyzer_complete, hne, r, hr, hid, hgt⟩

/-! ## Claim C4 -/

/-- Claim C4 (amended): `get_entity_status` reports, per entity, a Z-score
computed against the live running count of the current interval, using the
detector's `|actual - mean| / std_dev` rule whenever `std_dev > 0`; but in
the zero-variance branch it uses the FIXED sentinel `3.0` (guarded by
`mean > 0`), not the detector's `+inf` / `sensitivity_threshold + 1`
sentinel (see the counterexample); severity uses the same `_get_severity`
bands, and the returned list is sorted most-concerning first
(alert, concern, attention, normal). -/
theorem C4_entity_status_zscore_rule (s : SqrtFn) (a : PatternAnalyzer)
    (now : Timestamp) (eid : String) (p : EntityPattern) (b : TimeBucket)
    (l : List EntityStatus)
    (hb : p.getBucket? now = some b)
    (hl : a.get_entity_status s now = some l) :
    (entityStatusOf s a now eid p).map (fun st => st.z_score) =
      some (roundQ (statusZ b.mean (s.f b.stdDevSq)
        (((alookup a.current_interval_activity eid).getD 0 : ℕ) : ℚ)) 2) ∧
    (entityStatusOf s a now eid p).map (fun st => st.severity) =
      some (getSeverity (.fin (statusZ b.mean (s.f b.stdDevSq)
        (((alookup a.current_interval_activity eid).getD 0 : ℕ) : ℚ)))) ∧
    (0 < s.f b.stdDevSq →
      ∀ threshold actual, detectorZ threshold b.mean (s.f b.stdDevSq) actual
        = ZVal.fin (statusZ b.mean (s.f b.stdDevSq) actual)) ∧
    ((s.f b.stdDevSq = 0 ∧
        (((alookup a.current_interval_activity eid).getD 0 : ℕ) : ℚ) ≠ b.mean ∧
        0 < b.mean) →
      statusZ b.mean (s.f b.stdDevSq)
        (((alookup a.current_interval_activity eid).getD 0 : ℕ) : ℚ) = 3) ∧
    List.Pairwise (fun x y => statusRank x.status ≤ statusRank y.status) l := by
  have hexp : p.get_expected_activity s now = some (b.mean, s.f b.stdDevSq) := by
    unfold EntityPattern.get_expected_activity
    rw [hb]
    rfl
  refine ⟨?_, ?_, ?_, ?_, ?_⟩
  · unfold entityStatusOf
    rw [hexp]
    rfl
  · unfold entityStatusOf
    rw [hexp]
    rfl
  · intro hpos threshold actual
    unfold detectorZ statusZ
    rw [if_pos hpos, if_pos hpos]
  · rintro ⟨hz, hne, hpos⟩
    unfold statusZ
    rw [hz]
    rw [if_neg (lt_irrefl (0 : ℚ)), if_pos ⟨hne, hpos⟩]
  · unfold PatternAnalyzer.get_entity_status at hl
    obtain ⟨ys, _, hsort⟩ := Option.map_eq_some'.mp hl
    subst hsort
    have hs := @List.sorted_mergeSort EntityStatus
      (fun (x y : EntityStatus) =>
        decide (statusRank x.status ≤ statusRank y.status))
      (fun a b c hab hbc => by
        simp only [decide_eq_true_eq] at hab hbc ⊢
        exact le_trans hab hbc)
      (fun a b => by
        simp only [Bool.or_eq_true, decide_eq_true_eq]
        exact Nat.le_total _ _)
      ys
    exact hs.imp (fun hxy => by simpa using hxy)

/-- The analyzer used in the C4 concrete instances: one entity with the
zero-variance mean-1 bucket, live current-interval count 2. -/
def c4Analyzer : PatternAnalyzer :=
  { PatternAnalyzer.new 2 7 with
      patterns := [("sensor.a", c1Pattern)]
      current_interval_activity := [("sensor.a", 2)]
      current_interval := 0
      current_interval_day := 4 }

/-- Counterexample to C4 as stated: at a zero-variance slot with mean 1 and
live count 2, the statistical detector's rule yields z = +inf, but
`get_entity_status` reports the finite fixed sentinel 3.0 — not the
detector's `+infinity` / `sensitivity_threshold + 1` sentinel the claim
asserts. -/
theorem C4_counterexample :
    (entityStatusOf sqrtStub c4Analyzer 691200 "sensor.a" c1Pattern).map
        (fun st => st.z_score) = some 3 ∧
    (checkEntityAnomaly sqrtStub 2 691200 [("sensor.a", 2)] "sensor.a"
        c1Pattern).map (Option.map (fun r => r.z_score)) =
      some (some ZVal.inf) ∧
    ZVal.fin 3 ≠ ZVal.inf := by
  have hmean1 : (⟨1, 1, 1⟩ : TimeBucket).mean = 1 := by
    unfold TimeBucket.mean
    norm_num
  have hexp : c1Pattern.get_expected_activity sqrtStub 691200
      = some (1, 0) := c1Pattern_exp
  refine ⟨?_, ?_, by decide⟩
  · unfold entityStatusOf
    rw [hexp]
    have hact : ((alookup c4Analyzer.current_interval_activity
        "sensor.a").getD 0 : ℕ) = 2 := by decide
    simp only [Option.map_some']
    rw [hact]
    have hz : statusZ 1 0 ((2 : ℕ) : ℚ) = 3 := by
      unfold statusZ
      rw [if_neg (lt_irrefl (0 : ℚ)), if_pos (by norm_num)]
    rw [hz]
    have : roundQ 3 2 = 3 := by
      unfold roundQ roundHalfEven
      norm_num
    rw [this]
  · unfold checkEntityAnomaly
    rw [hexp]
    have hact : ((((alookup ([("sensor.a", 2)] : Dict String ℕ)
        "sensor.a").getD 0 : ℕ)) : ℚ) = 2 := by
      norm_num [alookup]
    have hdec := anomalyDecision_zero_var 2 691200 "sensor.a" 1 2
      (by norm_num) (by norm_num)
    rw [if_pos (by norm_num : (2 : ℚ) ≠ 1)] at hdec
    rw [if_pos (by norm_num : (0 : ℚ) < 2)] at hdec
    simp only [Option.map_some']
    rw [hact, hdec]
    rfl

/-- The single status entry produced in the C4 witness run. -/
def c4StatusList : List EntityStatus :=
  [{ entity_id := "sensor.a"
     last_activity := none
     time_since_seconds := none
     daily_count := 0
     current_interval_count := 2
     expected_interval_count := 1
     z_score := 3
     severity := "moderate"
     status := "concern" }]

theorem c4_entity_eval :
    entityStatusOf sqrtStub c4Analyzer 691200 "sensor.a" c1Pattern =
      some { entity_id := "sensor.a"
             last_activity := none
             time_since_seconds := none
             daily_count := 0
             current_interval_count := 2
             expected_interval_count := 1
             z_score := 3
             severity := "moderate"
             status := "concern" } := by
  unfold entityStatusOf
  rw [c1Pattern_exp]
  have hact : (alookup c4Analyzer.current_interval_activity "sensor.a").getD 0
      = 2 := by decide
  have hz : statusZ 1 0 (2 : ℚ) = 3 := by
    unfold statusZ
    rw [if_neg (lt_irrefl (0 : ℚ)), if_pos (by norm_num)]
  have hr1 : roundQ 1 1 = 1 := by
    unfold roundQ roundHalfEven
    norm_num
  have hr3 : roundQ 3 2 = 3 := by
    unfold roundQ roundHalfEven
    norm_num
  have hsev : getSeverity (ZVal.fin 3) = "moderate" := by
    unfold getSeverity ZVal.geQ
    norm_num
  have hband : statusBand 3 = "concern" := by
    unfold statusBand
    norm_num
  have halo : (alookup ([("sensor.a", 2)] : Dict String ℕ) "sensor.a").getD 0
      = 2 := by decide
  simp [hact, halo, hz, hr1, hr3, hsev, hband, c1Pattern, EntityPattern.new,
    PatternAnalyzer.get_daily_count, c4Analyzer, PatternAnalyzer.new]

theorem c4_status_eval :
    c4Analyzer.get_entity_status sqrtStub 691200 = some c4StatusList := by
  unfold PatternAnalyzer.get_entity_status
  have hone : List.mapM
      (fun (pr : String × EntityPattern) =>
        entityStatusOf sqrtStub c4Analyzer 691200 pr.1 pr.2)
      c4Analyzer.patterns = some c4StatusList := by
    rw [show c4Analyzer.patterns = [("sensor.a", c1Pattern)] from rfl,
      List.mapM_cons, c4_entity_eval]
    rfl
  rw [hone]
  simp [c4StatusList]

/-- Witness for C4 at a concrete input: the single-entity status list is
produced, its z-score is the (rounded) statusZ value against the live
count, and the list is sorted by the alert/concern/attention/normal
ranking. -/
theorem C4_entity_status_zscore_rule_witness :
    c1Pattern.getBucket? 691200 = some ⟨1, 1, 1⟩ ∧
    c4Analyzer.get_entity_status sqrtStub 691200 = some c4StatusList ∧
    (entityStatusOf sqrtStub c4Analyzer 691200 "sensor.a" c1Pattern).map
        (fun st => st.z_score) =
      some (roundQ (statusZ (⟨1, 1, 1⟩ : TimeBucket).mean
        (sqrtStub.f (⟨1, 1, 1⟩ : TimeBucket).stdDevSq)
        (((alookup c4Analyzer.current_interval_activity "sensor.a").getD 0
          : ℕ) : ℚ)) 2) ∧
    List.Pairwise (fun x y => statusRank x.status ≤ statusRank y.status)
      c4StatusList := by
  have h := C4_entity_status_zscore_rule sqrtStub c4Analyzer 691200
    "sensor.a" c1Pattern ⟨1, 1, 1⟩ c4StatusList c1Pattern_bucket
    c4_status_eval
  exact ⟨c1Pattern_bucket, c4_status_eval, h.1, h.2.2.2.2⟩

/-! ## Claim C8 -/

theorem loadDayBuckets_lookup_cases (docDays : Dict Int (List TimeBucketDoc))
    (init : Dict Int (List TimeBucket)) (k : Int) :
    alookup (loadDayBuckets docDays init) k = alookup init k ∨
    ∃ v, (k, v) ∈ docDays ∧
      alookup (loadDayBuckets docDays init) k
        = some (v.map TimeBucket.from_dict) := by
  induction docDays generalizing init with
  | nil => left; rfl
  | cons hd rest ih =>
      obtain ⟨k0, v0⟩ := hd
      have hfold : loadDayBuckets ((k0, v0) :: rest) init
          = loadDayBuckets rest (ainsert init k0 (v0.map TimeBucket.from_dict)) := by
        unfold loadDayBuckets
        rw [List.foldl_cons]
      rw [hfold]
      rcases ih (ainsert init k0 (v0.map TimeBucket.from_dict)) with hch | ⟨v, hv, hlook⟩
      · by_cases hk : k = k0
        · subst hk
          right
          refine ⟨v0, List.mem_cons_self _ _, ?_⟩
          rw [hch]
          exact alookup_ainsert_self init k _
        · left
          rw [hch]
          exact alookup_ainsert_ne init k0 k _ hk
      · right
        exact ⟨v, List.mem_cons_of_mem _ hv, hlook⟩

theorem padTo96_length {l : List TimeBucket} (h : l.length ≤ 96) :
    (padTo96 l).length = 96 := by
  unfold padTo96
  rw [List.length_append, List.length_replicate]
  omega

theorem ensureDays_nil_eval :
    ensureDays [] =
      [((0 : Int), initBuckets), (1, initBuckets), (2, initBuckets),
       (3, initBuckets), (4, initBuckets), (5, initBuckets),
       (6, initBuckets)] := by
  rfl

/-- Claim C8 (amended): `EntityPattern.from_dict` zero-fills missing days
and missing cells, and — PROVIDED every serialized day key lies in 0..6 and
every serialized day list has at most 96 cells (as every document written
by `to_dict` does) — the result has exactly the 7 weekday keys 0..6, each
with exactly 96 buckets.  The unconditional claim fails: a day list longer
than 96 cells is NOT truncated (see the counterexample), and day keys
outside 0..6 are retained. -/
theorem C8_from_dict_dimensions (doc : EntityPatternDoc)
    (hkeys : ∀ pr ∈ doc.day_buckets,
      0 ≤ (pr : Int × List TimeBucketDoc).1 ∧ pr.1 < 7)
    (hlen : ∀ pr ∈ doc.day_buckets,
      (pr : Int × List TimeBucketDoc).2.length ≤ 96) :
    (EntityPattern.from_dict doc).day_buckets.map Prod.fst
      = [0, 1, 2, 3, 4, 5, 6] ∧
    ∀ pr ∈ (EntityPattern.from_dict doc).day_buckets,
      (pr : Int × List TimeBucket).2.length = 96 := by
  have hbasekeys : (ensureDays []).map Prod.fst = [0, 1, 2, 3, 4, 5, 6] := by
    rw [ensureDays_nil_eval]
    rfl
  have hloadkeys : (loadDayBuckets doc.day_buckets (ensureDays [])).map Prod.fst
      = [0, 1, 2, 3, 4, 5, 6] := by
    rw [loadDayBuckets_keys_of_subset _ _ ?_, hbasekeys]
    intro pr hpr
    rw [hbasekeys]
    have hk := hkeys pr hpr
    have : pr.1 = 0 ∨ pr.1 = 1 ∨ pr.1 = 2 ∨ pr.1 = 3 ∨ pr.1 = 4 ∨
        pr.1 = 5 ∨ pr.1 = 6 := by omega
    rcases this with h | h | h | h | h | h | h <;> rw [h] <;> simp
  have hfixkeys : (fixDays (loadDayBuckets doc.day_buckets (ensureDays []))).map
      Prod.fst = [0, 1, 2, 3, 4, 5, 6] := by
    unfold fixDays
    rw [foldl_fixStep_keys _ _ ?_, hloadkeys]
    intro day hday
    rw [hloadkeys]
    have : day < 7 := List.mem_range.mp hday
    interval_cases day <;> simp
  have hresult : (EntityPattern.from_dict doc).day_buckets
      = fixDays (loadDayBuckets doc.day_buckets (ensureDays [])) := rfl
  refine ⟨by rw [hresult, hfixkeys], ?_⟩
  intro pr hpr
  rw [hresult] at hpr
  have hknd : ((fixDays (loadDayBuckets doc.day_buckets
      (ensureDays []))).map Prod.fst).Nodup := by
    rw [hfixkeys]
    decide
  have hlook := alookup_eq_some_of_mem _ pr.1 pr.2 hknd hpr
  have hkmem : pr.1 ∈ (fixDays (loadDayBuckets doc.day_buckets
      (ensureDays []))).map Prod.fst := List.mem_map_of_mem Prod.fst hpr
  rw [hfixkeys] at hkmem
  have hbound : 0 ≤ pr.1 ∧ pr.1 < 7 := by
    simp at hkmem
    rcases hkmem with h | h | h | h | h | h | h <;> rw [h] <;> norm_num
  obtain ⟨n, hn7, hncast⟩ : ∃ n : ℕ, n < 7 ∧ (n : Int) = pr.1 :=
    ⟨pr.1.toNat, by omega, by omega⟩
  have hmemrange : n ∈ List.range 7 := List.mem_range.mpr hn7
  have hfix := foldl_fixStep_lookup_mem (List.range 7)
    (loadDayBuckets doc.day_buckets (ensureDays [])) n hmemrange
    (List.nodup_range 7)
  rw [hncast] at hfix
  have hfix2 : alookup (fixDays (loadDayBuckets doc.day_buckets
      (ensureDays []))) pr.1
      = some (match alookup (loadDayBuckets doc.day_buckets
          (ensureDays [])) pr.1 with
        | none => initBuckets
        | some l => padTo96 l) := hfix
  rw [hlook] at hfix2
  have hval : pr.2 = (match alookup (loadDayBuckets doc.day_buckets
      (ensureDays [])) pr.1 with
    | none => initBuckets
    | some l => padTo96 l) := Option.some.inj hfix2
  rcases loadDayBuckets_lookup_cases doc.day_buckets (ensureDays []) pr.1
    with hinit | ⟨v, hvmem, hveq⟩
  · rw [hinit] at hval
    have hbase : alookup (ensureDays []) pr.1 = some initBuckets := by
      rcases (by omega : pr.1 = 0 ∨ pr.1 = 1 ∨ pr.1 = 2 ∨ pr.1 = 3 ∨
          pr.1 = 4 ∨ pr.1 = 5 ∨ pr.1 = 6) with h | h | h | h | h | h | h <;>
        rw [h, ensureDays_nil_eval] <;> rfl
    rw [hbase] at hval
    rw [hval]
    exact padTo96_length (by unfold initBuckets; simp)
  · rw [hveq] at hval
    rw [hval]
    exact padTo96_length (by rw [List.length_map]; exact hlen (pr.1, v) hvmem)

/-- A serialized pattern with an OVERSIZED day entry: day 0 carries 97
cells. -/
def c8OversizedDoc : EntityPatternDoc :=
  { entity_id := "e"
    day_buckets := [(0, List.replicate 97 ⟨none, none, none⟩)]
    total_observations := none
    first_observation := none
    last_observation := none }

set_option maxRecDepth 8000 in
/-- Counterexample to C8 as stated: loading a document whose day-0 list has
97 cells yields a day-0 list of 97 buckets — `from_dict` pads short lists
but never truncates, so the 7 x 96 dimensions do NOT hold for every input
dictionary. -/
theorem C8_counterexample :
    alookup (EntityPattern.from_dict c8OversizedDoc).day_buckets 0 =
      some (List.replicate 97 TimeBucket.default) ∧
    (List.replicate 97 TimeBucket.default).length ≠ 96 := by
  constructor
  · decide
  · decide

/-- A serialized pattern with in-range keys and a SHORT day entry (1 cell
on day 2). -/
def c8ShortDoc : EntityPatternDoc :=
  { entity_id := "e"
    day_buckets := [(2, [⟨some 1, some 1, some 1⟩])]
    total_observations := some 1
    first_observation := some 0
    last_observation := some 0 }

set_option maxRecDepth 8000 in
/-- Witness for C8 at a concrete input: a short in-range document loads to
exactly the 7 weekday keys 0..6 with 96 cells each. -/
theorem C8_from_dict_dimensions_witness :
    (∀ pr ∈ c8ShortDoc.day_buckets,
      0 ≤ (pr : Int × List TimeBucketDoc).1 ∧ pr.1 < 7) ∧
    (∀ pr ∈ c8ShortDoc.day_buckets,
      (pr : Int × List TimeBucketDoc).2.length ≤ 96) ∧
    (EntityPattern.from_dict c8ShortDoc).day_buckets.map Prod.fst
      = [0, 1, 2, 3, 4, 5, 6] ∧
    ∀ pr ∈ (EntityPattern.from_dict c8ShortDoc).day_buckets,
      (pr : Int × List TimeBucket).2.length = 96 := by
  have h := C8_from_dict_dimensions c8ShortDoc (by decide) (by decide)
  exact ⟨by decide, by decide, h.1, h.2⟩

/-! ## Claim C9 -/

/-- Claim C9 (amended): in holiday mode every state-change event is dropped
entirely — the whole coordinator state (Pattern Store, ML model and event
log, correlation map, recent-events window) is unchanged.  When snoozed
(not holiday), a qualifying event leaves the Pattern Store and the ML
model/event log unchanged, and — IF ML is enabled — is appended only to the
coordinator's recent-events window (pruned to 2 x cross_sensor_window);
with ML disabled the original claim fails: nothing at all is recorded, not
even the recent-events append (see the counterexample). -/
theorem C9_suppression_frame (c : Coordinator) (now : Timestamp)
    (ev : HAEvent) :
    (c.holiday_mode = true → c.handle_state_changed now ev = some c) ∧
    (∀ os ns, c.holiday_mode = false → c.is_snoozed now = true →
      ev.old_state = some os → ev.new_state = some ns →
      ev.entity_id ∈ c.monitored_entities →
      (os.state ≠ ns.state ∨
        (c.track_attributes = true ∧ os.attributes ≠ ns.attributes)) →
      c.handle_state_changed now ev =
        some (if c.enable_ml then
          { c with recent_events :=
              ((c.recent_events ++
                  [(⟨ev.entity_id, now, some os.state, some ns.state⟩ :
                    StateChangeEvent)]).filter
                (fun e => now - c.cross_sensor_window * 2 ≤ e.timestamp)) }
        else c)) := by
  constructor
  · intro hh
    unfold Coordinator.handle_state_changed
    rw [if_pos hh]
  · intro os ns hh hsz hold hnew hmem hqual
    unfold Coordinator.handle_state_changed
    rw [if_neg (by simp [hh]), if_neg (fun hc => hc hmem), hold, hnew]
    show c.handleQualified now ev.entity_id os ns = _
    unfold Coordinator.handleQualified
    have hc1 : ¬(os.state = ns.state ∧ ¬(c.track_attributes = true)) := by
      rintro ⟨heq, hnt⟩
      rcases hqual with h | ⟨ht, _⟩
      · exact h heq
      · exact hnt ht
    have hc2 : ¬(os.state = ns.state ∧ os.attributes = ns.attributes) := by
      rintro ⟨heq, hattr⟩
      rcases hqual with h | ⟨_, hna⟩
      · exact h heq
      · exact hna hattr
    rw [if_neg hc1, if_neg hc2]
    simp only [hsz, if_pos, Option.map_some']
    refine congrArg some ?_
    by_cases hml : c.enable_ml = true
    · rw [if_pos hml, if_pos (show (({ c with analyzer := c.analyzer } :
        Coordinator)).enable_ml = true from hml)]
      rfl
    · rw [if_neg hml, if_neg (show ¬((({ c with analyzer := c.analyzer } :
        Coordinator)).enable_ml = true) from hml)]

/-- A snoozed (until t=1000), non-holiday coordinator with `ml` controlling
ML availability, used in the C9 concrete instances. -/
def c9Base (ml : Bool) : Coordinator :=
  { analyzer := PatternAnalyzer.new 2 7
    ml_analyzer := MLState.new ml 1 300
    recent_anomalies := []
    recent_ml_anomalies := []
    recent_events := []
    last_welfare_status := none
    last_notification_time := none
    last_notification_type := none
    holiday_mode := false
    snooze_until := some 1000
    enable_ml := ml
    enable_notifications := true
    track_attributes := true
    monitored_entities := ["sensor.a"]
    notify_services := []
    retrain_period_days := 14
    ml_learning_period_days := 7
    cross_sensor_window := 300 }

/-- A qualifying state-change event ("off" to "on") for the monitored
entity. -/
def c9Event : HAEvent :=
  ⟨"sensor.a", some ⟨"off", []⟩, some ⟨"on", []⟩⟩

/-- Counterexample to C9 as stated: a snoozed, ML-disabled coordinator
handles a qualifying state change as a complete no-op — in particular the
event is NOT appended to the recent-events window, contradicting the
claim's unconditional "appends it to the coordinator's recent-events
window". -/
theorem C9_counterexample :
    (c9Base false).is_snoozed 500 = true ∧
    (c9Base false).holiday_mode = false ∧
    (c9Base false).handle_state_changed 500 c9Event = some (c9Base false) ∧
    (c9Base false).recent_events = [] := by
  refine ⟨by decide, by decide, ?_, by decide⟩
  have h := (C9_suppression_frame (c9Base false) 500 c9Event).2
    ⟨"off", []⟩ ⟨"on", []⟩ rfl (by decide) rfl rfl (by decide)
    (Or.inl (by decide))
  rw [h]
  rfl

/-- Witness for C9 at a concrete input: in holiday mode the event is
dropped entirely; snoozed with ML enabled, the qualifying event is appended
only to the recent-events window. -/
theorem C9_suppression_frame_witness :
    ({ c9Base true with holiday_mode := true } :
        Coordinator).handle_state_changed 500 c9Event =
      some { c9Base true with holiday_mode := true } ∧
    (c9Base true).is_snoozed 500 = true ∧
    (c9Base true).handle_state_changed 500 c9Event =
      some { c9Base true with
        recent_events :=
          (((c9Base true).recent_events ++
              [(⟨"sensor.a", 500, some "off", some "on"⟩ :
                StateChangeEvent)]).filter
            (fun e => 500 - (c9Base true).cross_sensor_window * 2
              ≤ e.timestamp)) } := by
  constructor
  · exact (C9_suppression_frame
      { c9Base true with holiday_mode := true } 500 c9Event).1 rfl
  · refine ⟨by decide, ?_⟩
    have h := (C9_suppression_frame (c9Base true) 500 c9Event).2
      ⟨"off", []⟩ ⟨"on", []⟩ rfl (by decide) rfl rfl (by decide)
      (Or.inl (by decide))
    rw [h]
    rfl

/-! ## C10: `MLPatternAnalyzer.from_dict` retraining behaviour -/

/-- `trainStep` touches only the model, the sample counter, the entity
index map and the entity-last-change map: the event log, the cross-sensor
patterns and the warm-up bookkeeping pass through, the sample counter goes
up by one and the model gains exactly one learned feature vector. -/
theorem trainStep_fields (acc : MLState) (e : StateChangeEvent) :
    (trainStep acc e).events = acc.events ∧
    (trainStep acc e).cross_sensor_patterns = acc.cross_sensor_patterns ∧
    (trainStep acc e).samples_processed = acc.samples_processed + 1 ∧
    (trainStep acc e).last_warmup = acc.last_warmup ∧
    (trainStep acc e).became_effective_at = acc.became_effective_at ∧
    ((trainStep acc e).model.getD []).length
      = (acc.model.getD []).length + 1 := by
  cases h : alookup acc.entity_indices e.entity_id <;>
    simp [trainStep, MLState.extractFeatures, MLState.getEntityIndex, h]

/-- Replaying a list of events through `trainStep` preserves the event log,
the cross-sensor patterns and the warm-up bookkeeping, adds the list's
length to the sample counter and learns exactly one feature vector per
event. -/
theorem foldl_trainStep_props (l : List StateChangeEvent) (st : MLState) :
    (l.foldl trainStep st).events = st.events ∧
    (l.foldl trainStep st).cross_sensor_patterns
      = st.cross_sensor_patterns ∧
    (l.foldl trainStep st).samples_processed
      = st.samples_processed + l.length ∧
    (l.foldl trainStep st).last_warmup = st.last_warmup ∧
    (l.foldl trainStep st).became_effective_at = st.became_effective_at ∧
    ((l.foldl trainStep st).model.getD []).length
      = (st.model.getD []).length + l.length := by
  induction l generalizing st with
  | nil => simp
  | cons e rest ih =>
    obtain ⟨he, hc, hs, hw, hb, hm⟩ := trainStep_fields st e
    obtain ⟨ihe, ihc, ihs, ihw, ihb, ihm⟩ := ih (trainStep st e)
    refine ⟨ihe.trans he, ihc.trans hc, ?_, ihw.trans hw, ihb.trans hb, ?_⟩
    · simp only [List.foldl_cons, List.length_cons]
      omega
    · simp only [List.foldl_cons, List.length_cons]
      omega

/-- On a state with a live model and at least 100 logged events, `train`
replays the whole log: the resulting sample counter and learned-feature
count both equal the event-log length, `last_warmup` is stamped with the
call time, and the event log and cross-sensor patterns are untouched. -/
theorem train_of_ready (m : MLState) (now : Timestamp)
    (hm : ¬ m.model = none) (hl : 100 ≤ m.events.length) :
    ((m.train now).2).samples_processed = m.events.length ∧
    ((m.train now).2).last_warmup = some now ∧
    ((m.train now).2).events = m.events ∧
    ((m.train now).2).cross_sensor_patterns = m.cross_sensor_patterns ∧
    (((m.train now).2).model.getD []).length = m.events.length := by
  unfold MLState.train
  rw [if_neg hm, if_neg (show ¬ m.events.length < 100 by omega)]
  obtain ⟨he, hc, hs, hw, hb, hmo⟩ := foldl_trainStep_props m.events
    { m with model := some [], samples_processed := 0,
             entity_last_change := [] }
  dsimp only
  split
  · exact ⟨by simp [hs], rfl, by simpa using he, by simpa using hc,
      by simp [hmo]⟩
  · exact ⟨by simp [hs], rfl, by simpa using he, by simpa using hc,
      by simp [hmo]⟩

/-- Claim C10: if `MLPatternAnalyzer.from_dict` loads a document with at
least `MIN_SAMPLES_FOR_ML = 100` stored events while the ML runtime is
available, it retrains by replaying the stored events: afterwards
`samples_processed` equals the number of stored events (overwriting the
persisted value), the model holds exactly one learned feature vector per
stored event, `last_warmup` is the load time, and the restored event log
and cross-sensor patterns are exactly the loaded ones. With fewer than 100
stored events no replay occurs: the persisted `samples_processed` and
`last_warmup` are kept as-is and the model is the untrained fresh one. -/
theorem C10_from_dict_retrain (avail : Bool) (doc : MLDoc) (cont? : Option ℚ)
    (win? : Option Int) (now : Timestamp) :
    (avail = true → 100 ≤ doc.events.length →
      (MLState.from_dict avail doc cont? win? now).samples_processed
          = doc.events.length ∧
      (MLState.from_dict avail doc cont? win? now).last_warmup = some now ∧
      (MLState.from_dict avail doc cont? win? now).events
          = doc.events.map StateChangeEvent.from_dict ∧
      (MLState.from_dict avail doc cont? win? now).cross_sensor_patterns
          = loadCrossPatterns doc.cross_sensor_patterns ∧
      ((MLState.from_dict avail doc cont? win? now).model.getD []).length
          = doc.events.length) ∧
    (doc.events.length < 100 →
      (MLState.from_dict avail doc cont? win? now).samples_processed
          = doc.samples_processed.getD 0 ∧
      (MLState.from_dict avail doc cont? win? now).last_warmup
          = doc.last_warmup ∧
      (MLState.from_dict avail doc cont? win? now).events
          = doc.events.map StateChangeEvent.from_dict ∧
      (MLState.from_dict avail doc cont? win? now).cross_sensor_patterns
          = loadCrossPatterns doc.cross_sensor_patterns ∧
      (MLState.from_dict avail doc cont? win? now).model
          = if avail then some [] else none) := by
  constructor
  · intro hav hlen
    unfold MLState.from_dict
    dsimp only
    rw [if_pos (show 100 ≤ (doc.events.map StateChangeEvent.from_dict).length
      by simpa using hlen)]
    subst hav
    obtain ⟨hs, hw, he, hc, hmo⟩ := train_of_ready
      { contamination := pyOrQ cont? (doc.contamination.getD (1/20))
        cross_sensor_window := pyOrZ win? (doc.cross_sensor_window_seconds.getD 300)
        events := doc.events.map StateChangeEvent.from_dict
        model := some []
        samples_processed := doc.samples_processed.getD 0
        cross_sensor_patterns := loadCrossPatterns doc.cross_sensor_patterns
        entity_last_change :=
          (doc.events.map StateChangeEvent.from_dict).foldl
            (fun (acc : Dict String Timestamp) (e : StateChangeEvent) =>
              ainsert acc e.entity_id e.timestamp) []
        recent_events_window := []
        entity_indices := doc.entity_indices
        became_effective_at := doc.became_effective_at
        last_warmup := doc.last_warmup } now
      (by simp) (by simpa using hlen)
    refine ⟨?_, ?_, ?_, ?_, ?_⟩
    · exact hs.trans (by simp)
    · exact hw
    · exact he
    · exact hc
    · exact hmo.trans (by simp)
  · intro hlen
    unfold MLState.from_dict
    dsimp only
    rw [if_neg (show ¬ 100 ≤ (doc.events.map StateChangeEvent.from_dict).length
      by simpa using hlen)]
    exact ⟨rfl, rfl, rfl, rfl, rfl⟩

/-- 100 copies of one stored event: enough to trigger the load-time
retrain. -/
def c10DocBig : MLDoc :=
  { events := List.replicate 100 ⟨"sensor.a", 1000, some "off", some "on"⟩
    cross_sensor_patterns := []
    samples_processed := some 7
    contamination := none
    cross_sensor_window_seconds := none
    entity_indices := []
    became_effective_at := none
    last_warmup := none }

/-- A single stored event: below the retrain bar. -/
def c10DocSmall : MLDoc :=
  { c10DocBig with
    events := [⟨"sensor.a", 1000, some "off", some "on"⟩] }

/-- Witness for C10 at concrete inputs: loading 100 stored events with ML
available retrains (the persisted `samples_processed = 7` is overwritten by
100 and `last_warmup` becomes the load time), while loading one stored
event keeps the persisted counter and leaves the model untrained. -/
theorem C10_from_dict_retrain_witness :
    (100 ≤ c10DocBig.events.length ∧
      (MLState.from_dict true c10DocBig none none 5000).samples_processed
          = c10DocBig.events.length ∧
      (MLState.from_dict true c10DocBig none none 5000).last_warmup
          = some 5000 ∧
      ((MLState.from_dict true c10DocBig none none 5000).model.getD
          []).length = c10DocBig.events.length) ∧
    (c10DocSmall.events.length < 100 ∧
      (MLState.from_dict true c10DocSmall none none 5000).samples_processed
          = c10DocSmall.samples_processed.getD 0 ∧
      (MLState.from_dict true c10DocSmall none none 5000).last_warmup
          = c10DocSmall.last_warmup ∧
      (MLState.from_dict true c10DocSmall none none 5000).model
          = some []) := by
  constructor
  · have h := (C10_from_dict_retrain true c10DocBig none none 5000).1 rfl
      (by decide)
    exact ⟨by decide, h.1, h.2.1, h.2.2.2.2⟩
  · have h := (C10_from_dict_retrain true c10DocSmall none none 5000).2
      (by decide)
    exact ⟨by decide, h.1, h.2.1, h.2.2.2.2⟩

/-! ## C6: serialization round-trip -/

theorem mem_of_alookup_eq_some {α β : Type} [DecidableEq α]
    {l : Dict α β} {k : α} {v : β} (h : alookup l k = some v) : (k, v) ∈ l := by
  induction l with
  | nil => cases h
  | cons hd rest ih =>
      obtain ⟨k0, v0⟩ := hd
      by_cases hk : k = k0
      · subst hk
        simp [alookup] at h
        subst h
        exact List.mem_cons_self _ _
      · simp only [alookup, if_neg hk] at h
        exact List.mem_cons_of_mem _ (ih h)

theorem alookup_eq_none_iff {α β : Type} [DecidableEq α]
    (l : Dict α β) (k : α) :
    alookup l k = none ↔ k ∉ l.map Prod.fst := by
  induction l with
  | nil => simp [alookup]
  | cons hd rest ih =>
      obtain ⟨k0, v0⟩ := hd
      by_cases hk : k = k0 <;> simp [alookup, hk, ih]

theorem map_fst_pair_map {α β γ : Type} (g : β → γ) (l : List (α × β)) :
    (l.map (fun pr => (pr.1, g pr.2))).map Prod.fst = l.map Prod.fst := by
  induction l with
  | nil => rfl
  | cons hd rest ih => simp [ih]

theorem ainsert_eq_append_of_notin {α β : Type} [DecidableEq α]
    {l : Dict α β} {k : α} (v : β) (h : k ∉ l.map Prod.fst) :
    ainsert l k v = l ++ [(k, v)] := by
  induction l with
  | nil => rfl
  | cons hd rest ih =>
      obtain ⟨k0, v0⟩ := hd
      simp only [List.map_cons, List.mem_cons] at h
      push_neg at h
      simp [ainsert, h.1, ih h.2]

/-- Folding `d[k] = f v` over a document with pairwise-distinct keys,
starting from a dictionary containing none of them, appends the
value-mapped bindings in order. -/
theorem foldl_ainsert_map {α β γ : Type} [DecidableEq α]
    (f : β → γ) (l : Dict α β) (init : Dict α γ)
    (hnd : (l.map Prod.fst).Nodup)
    (hdisj : ∀ k ∈ l.map Prod.fst, k ∉ init.map Prod.fst) :
    l.foldl (fun acc pr => ainsert acc pr.1 (f pr.2)) init
      = init ++ l.map (fun pr => (pr.1, f pr.2)) := by
  induction l generalizing init with
  | nil => simp
  | cons hd rest ih =>
      obtain ⟨k0, v0⟩ := hd
      simp only [List.map_cons, List.nodup_cons] at hnd
      simp only [List.foldl_cons]
      rw [show ainsert init k0 (f v0) = init ++ [(k0, f v0)] from
        ainsert_eq_append_of_notin _ (hdisj k0 (by simp))]
      rw [ih (init ++ [(k0, f v0)]) hnd.2 (by
        intro k hk
        simp only [List.map_append, List.map_cons, List.map_nil,
          List.mem_append, List.mem_singleton]
        rintro (hin | hk0)
        · exact hdisj k (List.mem_cons_of_mem _ hk) hin
        · exact hnd.1 (hk0 ▸ hk))]
      simp

theorem stateChangeEvent_from_to_dict (e : StateChangeEvent) :
    StateChangeEvent.from_dict e.to_dict = e := rfl

theorem crossSensorPattern_from_to_dict (p : CrossSensorPattern) :
    CrossSensorPattern.from_dict p.to_dict = p := rfl

theorem map_events_from_to_dict (l : List StateChangeEvent) :
    (l.map StateChangeEvent.to_dict).map StateChangeEvent.from_dict = l := by
  induction l with
  | nil => rfl
  | cons e rest ih => simp [ih, stateChangeEvent_from_to_dict]

/-- `train` never touches the event log or the cross-sensor patterns. -/
theorem train_frame (m : MLState) (now : Timestamp) :
    ((m.train now).2).events = m.events ∧
    ((m.train now).2).cross_sensor_patterns = m.cross_sensor_patterns := by
  unfold MLState.train
  by_cases hm : m.model = none
  · rw [if_pos hm]
    exact ⟨rfl, rfl⟩
  · rw [if_neg hm]
    by_cases hl : m.events.length < 100
    · rw [if_pos hl]
      exact ⟨rfl, rfl⟩
    · rw [if_neg hl]
      obtain ⟨he, hc, hs, hw, hb, hmo⟩ := foldl_trainStep_props m.events
        { m with model := some [], samples_processed := 0,
                 entity_last_change := [] }
      dsimp only
      split
      · exact ⟨by simpa using he, by simpa using hc⟩
      · exact ⟨by simpa using he, by simpa using hc⟩

/-- The cross-sensor loading loop over a document written by `to_dict`:
with bar-free entity ids (every serialized key splits back into its two
components) and pairwise-distinct pattern keys it reproduces the
serialized pattern map bindings in order. -/
theorem loadCrossPatterns_map_eq
    (l : Dict (String × String) CrossSensorPattern)
    (acc : Dict (String × String) CrossSensorPattern)
    (hnd : (l.map Prod.fst).Nodup)
    (hdisj : ∀ k ∈ l.map Prod.fst, k ∉ acc.map Prod.fst)
    (hbar : ∀ pr ∈ l,
      pySplit '|' ((pr : (String × String) × CrossSensorPattern).1.1 ++ "|"
          ++ pr.1.2) = [pr.1.1, pr.1.2]) :
    (l.map (fun (pr : (String × String) × CrossSensorPattern) =>
        (pr.1.1 ++ "|" ++ pr.1.2, pr.2.to_dict))).foldl
      (fun (acc2 : Dict (String × String) CrossSensorPattern)
           (pr : String × CrossSensorPatternDoc) =>
        match pySplit '|' pr.1 with
        | [a, b] => ainsert acc2 (a, b) (CrossSensorPattern.from_dict pr.2)
        | _ => acc2) acc
      = acc ++ l := by
  induction l generalizing acc with
  | nil => simp
  | cons hd rest ih =>
      obtain ⟨⟨a, b⟩, v⟩ := hd
      simp only [List.map_cons, List.nodup_cons] at hnd
      simp only [List.map_cons, List.foldl_cons]
      have hb2 : pySplit '|' (a ++ "|" ++ b) = [a, b] :=
        hbar ⟨(a, b), v⟩ (List.mem_cons_self _ _)
      simp only [hb2, crossSensorPattern_from_to_dict]
      rw [show ainsert acc (a, b) v = acc ++ [((a, b), v)] from
        ainsert_eq_append_of_notin _ (hdisj (a, b) (by simp))]
      rw [ih (acc ++ [((a, b), v)]) hnd.2 (by
          intro k hk
          have h1 : k ∉ acc.map Prod.fst :=
            hdisj k (List.mem_cons_of_mem _ hk)
          have h2 : k ≠ (a, b) := fun he => hnd.1 (he ▸ hk)
          simp [h1, h2])
        (fun pr hpr => hbar pr (List.mem_cons_of_mem _ hpr))]
      simp

/-- Whether or not the load-time retrain fires, `from_dict` restores the
event log and cross-sensor patterns exactly as loaded. -/
theorem mlState_from_dict_events_csp (avail : Bool) (doc : MLDoc)
    (cont? : Option ℚ) (win? : Option Int) (now : Timestamp) :
    (MLState.from_dict avail doc cont? win? now).events
        = doc.events.map StateChangeEvent.from_dict ∧
    (MLState.from_dict avail doc cont? win? now).cross_sensor_patterns
        = loadCrossPatterns doc.cross_sensor_patterns := by
  unfold MLState.from_dict
  dsimp only
  split
  · constructor
    · exact (train_frame _ now).1
    · exact (train_frame _ now).2
  · exact ⟨rfl, rfl⟩

theorem map_buckets_from_to_dict (l : List TimeBucket) :
    (l.map TimeBucket.to_dict).map TimeBucket.from_dict = l := by
  induction l with
  | nil => rfl
  | cons b rest ihb => simp [ihb, TimeBucket.from_to_dict]

/-- An `EntityPattern` document written by `to_dict` from a well-formed
pattern loads back to a pattern with the same counters, the same
observation span, and bucket-for-bucket identical day grids. -/
theorem entityPattern_from_to_dict_of_WF (p : EntityPattern) (hwf : p.WF) :
    (EntityPattern.from_dict p.to_dict).total_observations
        = p.total_observations ∧
    (EntityPattern.from_dict p.to_dict).first_observation
        = p.first_observation ∧
    (EntityPattern.from_dict p.to_dict).last_observation
        = p.last_observation ∧
    ∀ k : Int, alookup (EntityPattern.from_dict p.to_dict).day_buckets k
        = alookup p.day_buckets k := by
  obtain ⟨hkeys, hlens⟩ := hwf
  refine ⟨rfl, rfl, rfl, ?_⟩
  intro k
  have hdoc : p.to_dict.day_buckets
      = p.day_buckets.map
          (fun (pr : Int × List TimeBucket) =>
            (pr.1, pr.2.map TimeBucket.to_dict)) := rfl
  have hdockeys : p.to_dict.day_buckets.map Prod.fst
      = p.day_buckets.map Prod.fst := by
    rw [hdoc]
    exact map_fst_pair_map (fun l2 => l2.map TimeBucket.to_dict) p.day_buckets
  have hdb : (EntityPattern.from_dict p.to_dict).day_buckets
      = (List.range 7).foldl fixStep
          (loadDayBuckets p.to_dict.day_buckets (ensureDays [])) := rfl
  rw [hdb]
  cases hlk : alookup p.day_buckets k with
  | some l =>
      have hmem : (k, l) ∈ p.day_buckets := mem_of_alookup_eq_some hlk
      have hdocmem : (k, l.map TimeBucket.to_dict) ∈ p.to_dict.day_buckets := by
        rw [hdoc]
        exact List.mem_map_of_mem _ hmem
      have hnddoc : (p.to_dict.day_buckets.map Prod.fst).Nodup := by
        rw [hdockeys, hkeys]
        decide
      have hload : alookup (loadDayBuckets p.to_dict.day_buckets
            (ensureDays [])) k = some l := by
        rw [loadDayBuckets_lookup_mem p.to_dict.day_buckets (ensureDays []) k
          (l.map TimeBucket.to_dict) hnddoc hdocmem]
        rw [map_buckets_from_to_dict]
      have hkmem : k ∈ p.day_buckets.map Prod.fst :=
        List.mem_map_of_mem Prod.fst hmem
      rw [hkeys] at hkmem
      have hkn : ∃ kn : ℕ, kn < 7 ∧ k = (kn : Int) := by
        simp only [List.mem_cons, List.not_mem_nil, or_false] at hkmem
        rcases hkmem with h | h | h | h | h | h | h
        · exact ⟨0, by norm_num, h⟩
        · exact ⟨1, by norm_num, h⟩
        · exact ⟨2, by norm_num, h⟩
        · exact ⟨3, by norm_num, h⟩
        · exact ⟨4, by norm_num, h⟩
        · exact ⟨5, by norm_num, h⟩
        · exact ⟨6, by norm_num, h⟩
      obtain ⟨kn, hkn7, hk⟩ := hkn
      subst hk
      rw [foldl_fixStep_lookup_mem (List.range 7) _ kn
        (List.mem_range.mpr hkn7) (List.nodup_range 7)]
      rw [hload]
      have hl96 : l.length = 96 := hlens (kn, l) hmem
      have hpad : padTo96 l = l := by
        unfold padTo96
        rw [hl96]
        simp
      show some (padTo96 l) = some l
      rw [hpad]
  | none =>
      have hknot : k ∉ p.day_buckets.map Prod.fst :=
        (alookup_eq_none_iff _ _).mp hlk
      rw [hkeys] at hknot
      have hne : ∀ day ∈ List.range 7, (day : Int) ≠ k := by
        intro day hday he
        apply hknot
        rw [← he]
        have hd7 : day < 7 := List.mem_range.mp hday
        interval_cases day <;> simp
      have hdisj : ∀ pr ∈ p.to_dict.day_buckets,
          (pr : Int × List TimeBucketDoc).1 ≠ k := by
        intro pr hpr he
        have hin : pr.1 ∈ p.to_dict.day_buckets.map Prod.fst :=
          List.mem_map_of_mem Prod.fst hpr
        rw [hdockeys, hkeys] at hin
        exact hknot (he ▸ hin)
      rw [foldl_fixStep_lookup_notin (List.range 7) _ k hne]
      rw [loadDayBuckets_lookup_notin p.to_dict.day_buckets (ensureDays []) k
        hdisj]
      rw [ensureDays_nil_eval]
      simp only [List.mem_cons, List.not_mem_nil, or_false] at hknot
      push_neg at hknot
      obtain ⟨h0, h1, h2, h3, h4, h5, h6⟩ := hknot
      simp [alookup, h0, h1, h2, h3, h4, h5, h6]

/-- Loading a statistical document written by `to_dict` rebuilds the
pattern map binding-for-binding (each value going through the
`EntityPattern` round trip), provided the entity ids are pairwise
distinct. -/
theorem patternAnalyzer_from_to_dict_patterns (a : PatternAnalyzer)
    (thr? : Option ℚ) (learn? : Option Int)
    (hnd : (a.patterns.map Prod.fst).Nodup) :
    (PatternAnalyzer.from_dict a.to_dict thr? learn?).patterns
      = a.patterns.map
          (fun (pr : String × EntityPattern) =>
            (pr.1, EntityPattern.from_dict pr.2.to_dict)) := by
  have hdoc : a.to_dict.patterns
      = a.patterns.map
          (fun (pr : String × EntityPattern) => (pr.1, pr.2.to_dict)) := rfl
  have h1 : (PatternAnalyzer.from_dict a.to_dict thr? learn?).patterns
      = a.to_dict.patterns.foldl
          (fun acc pr => ainsert acc pr.1 (EntityPattern.from_dict pr.2))
          [] := rfl
  rw [h1, hdoc]
  rw [foldl_ainsert_map EntityPattern.from_dict _ []
    (by
      rw [map_fst_pair_map EntityPattern.to_dict a.patterns]
      exact hnd)
    (by simp)]
  simp only [List.nil_append, List.map_map]
  rfl

/-- Claim C6: serialization round-trip.  For every analyzer state whose
entity ids are pairwise distinct and whose patterns are well-formed (as
every reachable Pattern Store is), reloading `to_dict` output reproduces
each entity's `total_observations`, `first_observation`,
`last_observation` and every bucket of its 7x96 day grid (hence every
bucket's count, mean and std_dev, which are computed from the bucket);
and for every ML state with pairwise-distinct, bar-free cross-sensor
keys, reloading `to_dict` output reproduces the stored event log and the
cross-sensor correlation map exactly. -/
theorem C6_serialization_round_trip (a : PatternAnalyzer) (m : MLState)
    (avail : Bool) (now : Timestamp)
    (hnd : (a.patterns.map Prod.fst).Nodup)
    (hwf : ∀ pr ∈ a.patterns, (pr : String × EntityPattern).2.WF)
    (hmnd : (m.cross_sensor_patterns.map Prod.fst).Nodup)
    (hbar : ∀ pr ∈ m.cross_sensor_patterns,
      pySplit '|' ((pr : (String × String) × CrossSensorPattern).1.1 ++ "|"
          ++ pr.1.2) = [pr.1.1, pr.1.2]) :
    (∀ eid p, alookup a.patterns eid = some p →
      ∃ p', alookup (PatternAnalyzer.from_dict a.to_dict none none).patterns
              eid = some p' ∧
        p'.total_observations = p.total_observations ∧
        p'.first_observation = p.first_observation ∧
        p'.last_observation = p.last_observation ∧
        ∀ k : Int, alookup p'.day_buckets k = alookup p.day_buckets k) ∧
    (MLState.from_dict avail m.to_dict none none now).events = m.events ∧
    (MLState.from_dict avail m.to_dict none none now).cross_sensor_patterns
        = m.cross_sensor_patterns := by
  refine ⟨?_, ?_, ?_⟩
  · intro eid p hlkp
    have hmem : (eid, p) ∈ a.patterns := mem_of_alookup_eq_some hlkp
    obtain ⟨ht, hf, hla, hbk⟩ :=
      entityPattern_from_to_dict_of_WF p (hwf (eid, p) hmem)
    refine ⟨EntityPattern.from_dict p.to_dict, ?_, ht, hf, hla, hbk⟩
    rw [patternAnalyzer_from_to_dict_patterns a none none hnd]
    apply alookup_eq_some_of_mem
    · rw [map_fst_pair_map
        (fun v : EntityPattern => EntityPattern.from_dict v.to_dict)
        a.patterns]
      exact hnd
    · exact List.mem_map_of_mem _ hmem
  · rw [(mlState_from_dict_events_csp avail m.to_dict none none now).1]
    have hdoc : m.to_dict.events = m.events.map StateChangeEvent.to_dict := rfl
    rw [hdoc, map_events_from_to_dict]
  · rw [(mlState_from_dict_events_csp avail m.to_dict none none now).2]
    have hdoc : m.to_dict.cross_sensor_patterns
        = m.cross_sensor_patterns.map
            (fun (pr : (String × String) × CrossSensorPattern) =>
              (pr.1.1 ++ "|" ++ pr.1.2, pr.2.to_dict)) := rfl
    rw [hdoc]
    exact (loadCrossPatterns_map_eq m.cross_sensor_patterns [] hmnd
      (by simp) hbar).trans (List.nil_append _)

/-- A small but non-trivial Pattern Store state: one entity with a fresh
well-formed grid and non-default counters. -/
def c6Pattern : EntityPattern :=
  { EntityPattern.new "sensor.a" with
    total_observations := 3
    first_observation := some 100
    last_observation := some 900 }

def c6Analyzer : PatternAnalyzer :=
  { PatternAnalyzer.new 2 7 with patterns := [("sensor.a", c6Pattern)] }

/-- A small ML state: one logged event and one cross-sensor pattern with
bar-free entity ids. -/
def c6ML : MLState :=
  { MLState.new true (1/20) 300 with
    events := [⟨"binary_sensor.kitchen", 1000, some "off", some "on"⟩]
    cross_sensor_patterns := [(("a", "b"), ⟨"a", "b", 12, 30, 8, 4⟩)] }

/-- Witness for C6 at concrete states: the reloaded Pattern Store
reproduces the entity's counters, observation span and buckets, and the
reloaded ML state reproduces the event log and cross-sensor map. -/
theorem C6_serialization_round_trip_witness :
    ((c6Analyzer.patterns.map Prod.fst).Nodup ∧
     (∀ pr ∈ c6Analyzer.patterns, (pr : String × EntityPattern).2.WF) ∧
     (c6ML.cross_sensor_patterns.map Prod.fst).Nodup ∧
     (∀ pr ∈ c6ML.cross_sensor_patterns,
       pySplit '|' ((pr : (String × String) × CrossSensorPattern).1.1 ++ "|"
           ++ pr.1.2) = [pr.1.1, pr.1.2])) ∧
    (∃ p', alookup (PatternAnalyzer.from_dict c6Analyzer.to_dict none
            none).patterns "sensor.a" = some p' ∧
       p'.total_observations = c6Pattern.total_observations ∧
       p'.first_observation = c6Pattern.first_observation ∧
       p'.last_observation = c6Pattern.last_observation ∧
       ∀ k : Int, alookup p'.day_buckets k = alookup c6Pattern.day_buckets k) ∧
    (MLState.from_dict true c6ML.to_dict none none 2000).events
        = c6ML.events ∧
    (MLState.from_dict true c6ML.to_dict none none
        2000).cross_sensor_patterns = c6ML.cross_sensor_patterns := by
  have h1 : (c6Analyzer.patterns.map Prod.fst).Nodup := by decide
  have h2 : ∀ pr ∈ c6Analyzer.patterns,
      (pr : String × EntityPattern).2.WF := by decide
  have h3 : (c6ML.cross_sensor_patterns.map Prod.fst).Nodup := by decide
  have h4 : ∀ pr ∈ c6ML.cross_sensor_patterns,
      pySplit '|' ((pr : (String × String) × CrossSensorPattern).1.1 ++ "|"
          ++ pr.1.2) = [pr.1.1, pr.1.2] := by decide
  have hmain := C6_serialization_round_trip c6Analyzer c6ML true 2000
    h1 h2 h3 h4
  exact ⟨⟨h1, h2, h3, h4⟩,
    hmain.1 "sensor.a" c6Pattern rfl, hmain.2.1, hmain.2.2⟩

/-! ## C3: the ML notification gate -/

/-- Mobile-sink delivery never emits an ML-anomaly call. -/
theorem sinkCalls_no_ml (svs : List String) (n : ℕ) :
    ExtCall.notifyML n ∉ sinkCalls svs := by
  unfold sinkCalls
  suffices h : ∀ acc : List ExtCall, ExtCall.notifyML n ∉ acc →
      ExtCall.notifyML n ∉ svs.foldl
        (fun acc sv =>
          if 2 ≤ (pySplit '.' sv).length then acc ++ [ExtCall.notifySink sv]
          else acc) acc by
    exact h [] (by simp)
  induction svs with
  | nil => intro acc hacc; simpa using hacc
  | cons sv rest ih =>
      intro acc hacc
      simp only [List.foldl_cons]
      apply ih
      split
      · intro hmem
        rcases List.mem_append.mp hmem with h | h
        · exact hacc h
        · simp at h
      · exact hacc

/-- `_send_notification` leaves the ML engine configuration untouched and
emits no ML-anomaly call. -/
theorem send_notification_spec (c : Coordinator) (now : Timestamp)
    (anoms : List AnomalyResult) (p : Coordinator × List ExtCall)
    (h : c.send_notification now anoms = some p) :
    p.1.ml_analyzer = c.ml_analyzer ∧ p.1.enable_ml = c.enable_ml ∧
    p.1.ml_learning_period_days = c.ml_learning_period_days ∧
    ∀ n, ExtCall.notifyML n ∉ p.2 := by
  unfold Coordinator.send_notification at h
  split at h
  · cases h
    exact ⟨rfl, rfl, rfl, by simp⟩
  · rw [Option.map_eq_some'] at h
    obtain ⟨hi, hhi, hp⟩ := h
    subst hp
    refine ⟨rfl, rfl, rfl, ?_⟩
    intro n hmem
    rcases List.mem_cons.mp hmem with he | hin
    · cases he
    · exact sinkCalls_no_ml _ n hin

/-- `_send_ml_notification` leaves the ML engine configuration
untouched. -/
theorem send_ml_notification_frame (c : Coordinator) (now : Timestamp)
    (anoms : List MLAnomalyResult) :
    ((c.send_ml_notification now anoms).1).ml_analyzer = c.ml_analyzer ∧
    ((c.send_ml_notification now anoms).1).enable_ml = c.enable_ml ∧
    ((c.send_ml_notification now anoms).1).ml_learning_period_days
      = c.ml_learning_period_days := by
  unfold Coordinator.send_ml_notification
  split
  · exact ⟨rfl, rfl, rfl⟩
  · exact ⟨rfl, rfl, rfl⟩

/-- `_send_welfare_notification` leaves the ML engine configuration
untouched and emits no ML-anomaly call. -/
theorem send_welfare_notification_spec (s : SqrtFn) (c : Coordinator)
    (now : Timestamp) (w : WelfareStatus) (p : Coordinator × List ExtCall)
    (h : c.send_welfare_notification s now w = some p) :
    p.1.ml_analyzer = c.ml_analyzer ∧ p.1.enable_ml = c.enable_ml ∧
    p.1.ml_learning_period_days = c.ml_learning_period_days ∧
    ∀ n, ExtCall.notifyML n ∉ p.2 := by
  unfold Coordinator.send_welfare_notification at h
  split at h
  · cases h
    exact ⟨rfl, rfl, rfl, by simp⟩
  · rw [Option.map_eq_some'] at h
    obtain ⟨st, hst, hp⟩ := h
    subst hp
    refine ⟨rfl, rfl, rfl, ?_⟩
    intro n hmem
    rcases List.mem_cons.mp hmem with he | hin
    · cases he
    · exact sinkCalls_no_ml _ n hin

/-- The notification phase keeps the ML engine configuration of its input
coordinator, and an ML-anomaly call can appear in its trace only when the
ML completeness gate was true. -/
theorem notifyPhase_spec (s : SqrtFn) (c4 : Coordinator) (now : Timestamp)
    (sa : List AnomalyResult) (ma : List MLAnomalyResult) (sc mc : Bool)
    (pn : Coordinator × List ExtCall)
    (h : Coordinator.notifyPhase s c4 now sa ma sc mc = some pn) :
    pn.1.ml_analyzer = c4.ml_analyzer ∧ pn.1.enable_ml = c4.enable_ml ∧
    pn.1.ml_learning_period_days = c4.ml_learning_period_days ∧
    ∀ n, ExtCall.notifyML n ∈ pn.2 → mc = true := by
  unfold Coordinator.notifyPhase at h
  rw [Option.bind_eq_some] at h
  obtain ⟨p1, hp1, hrest⟩ := h
  have hp1s : p1.1.ml_analyzer = c4.ml_analyzer ∧
      p1.1.enable_ml = c4.enable_ml ∧
      p1.1.ml_learning_period_days = c4.ml_learning_period_days ∧
      ∀ n, ExtCall.notifyML n ∉ p1.2 := by
    split at hp1
    · exact send_notification_spec _ _ _ _ hp1
    · cases hp1
      exact ⟨rfl, rfl, rfl, by simp⟩
  obtain ⟨hm1, he1, hl1, hn1⟩ := hp1s
  dsimp only at hrest
  by_cases hmc : (mc && decide (ma ≠ [])) = true
  · have hmctrue : mc = true := by
      simp only [Bool.and_eq_true] at hmc
      exact hmc.1
    rw [if_pos hmc] at hrest
    obtain ⟨hm2, he2, hl2⟩ := send_ml_notification_frame p1.1 now ma
    split at hrest
    · rw [Option.bind_eq_some] at hrest
      obtain ⟨w, hw, hrest2⟩ := hrest
      split at hrest2
      · rw [Option.map_eq_some'] at hrest2
        obtain ⟨p3, hp3, hpn⟩ := hrest2
        obtain ⟨hm3, he3, hl3, _⟩ :=
          send_welfare_notification_spec s _ now w p3 hp3
        subst hpn
        exact ⟨hm3.trans (hm2.trans hm1), he3.trans (he2.trans he1),
          hl3.trans (hl2.trans hl1), fun n _ => hmctrue⟩
      · cases hrest2
        exact ⟨hm2.trans hm1, he2.trans he1, hl2.trans hl1,
          fun n _ => hmctrue⟩
    · cases hrest
      exact ⟨hm2.trans hm1, he2.trans he1, hl2.trans hl1,
        fun n _ => hmctrue⟩
  · rw [if_neg hmc] at hrest
    split at hrest
    · rw [Option.bind_eq_some] at hrest
      obtain ⟨w, hw, hrest2⟩ := hrest
      split at hrest2
      · rw [Option.map_eq_some'] at hrest2
        obtain ⟨p3, hp3, hpn⟩ := hrest2
        obtain ⟨hm3, he3, hl3, hn3⟩ :=
          send_welfare_notification_spec s _ now w p3 hp3
        subst hpn
        refine ⟨hm3.trans hm1, he3.trans he1, hl3.trans hl1, ?_⟩
        intro n hmem
        exfalso
        rcases List.mem_append.mp hmem with hh | hh
        · rcases List.mem_append.mp hh with hh2 | hh2
          · exact hn1 n hh2
          · simp at hh2
        · exact hn3 n hh
      · cases hrest2
        refine ⟨hm1, he1, hl1, ?_⟩
        intro n hmem
        exfalso
        rcases List.mem_append.mp hmem with hh | hh
        · exact hn1 n hh
        · simp at hh
    · cases hrest
      refine ⟨hm1, he1, hl1, ?_⟩
      intro n hmem
      exfalso
      rcases List.mem_append.mp hmem with hh | hh
      · exact hn1 n hh
      · simp at hh

/-- The persist-and-report tail of the tick returns the coordinator it was
given and only appends persistence calls to the trace it was handed. -/
theorem tickData_spec (s : SqrtFn) (logF : ℕ → ℚ) (c7 : Coordinator)
    (now : Timestamp) (sa : List AnomalyResult) (ma : List MLAnomalyResult)
    (prevTr : List ExtCall) (c' : Coordinator) (d : TickData)
    (tr : List ExtCall)
    (h : Coordinator.tickData s logF c7 now sa ma prevTr = some (c', d, tr)) :
    c' = c7 ∧ ∀ n, ExtCall.notifyML n ∈ tr → ExtCall.notifyML n ∈ prevTr := by
  unfold Coordinator.tickData at h
  dsimp only at h
  rw [Option.bind_eq_some] at h
  obtain ⟨a1, ha1, h⟩ := h
  rw [Option.bind_eq_some] at h
  obtain ⟨a2, ha2, h⟩ := h
  rw [Option.bind_eq_some] at h
  obtain ⟨a3, ha3, h⟩ := h
  rw [Option.bind_eq_some] at h
  obtain ⟨a4, ha4, h⟩ := h
  rw [Option.map_eq_some'] at h
  obtain ⟨a5, ha5, heq⟩ := h
  injection heq with h1 hrest
  injection hrest with h2 h3
  subst h1
  subst h3
  refine ⟨rfl, ?_⟩
  intro n hmem
  rcases List.mem_append.mp hmem with hh | hh
  · exact hh
  · exfalso
    rcases List.mem_cons.mp hh with he | hin
    · cases he
    · split at hin
      · simp at hin
      · simp at hin

/-- The ML completeness flag produced by the anomaly phase is exactly the
gate read from the working coordinator it returns. -/
theorem anomalyPhase_mlComplete (s : SqrtFn)
    (score : List Features → Features → ℚ) (logF : ℕ → ℚ)
    (c : Coordinator) (now : Timestamp)
    (q : Coordinator × List AnomalyResult × List MLAnomalyResult
      × Bool × Bool)
    (h : Coordinator.anomalyPhase s score logF c now = some q) :
    q.2.2.2.2 = (q.1.enable_ml && q.1.ml_analyzer.is_trained &&
      (match q.1.ml_analyzer.first_event_time with
       | some fe => decide (q.1.ml_learning_period_days * 86400 ≤ now - fe)
       | none => false)) := by
  unfold Coordinator.anomalyPhase at h
  rw [Option.bind_eq_some] at h
  obtain ⟨sa, hsa, hq⟩ := h
  cases hq
  rfl

/-- Reading off the coordinator's ML completeness gate. -/
theorem mlComplete_spec (c4 : Coordinator) (now : Timestamp)
    (h : (c4.enable_ml && c4.ml_analyzer.is_trained &&
      (match c4.ml_analyzer.first_event_time with
       | some fe => decide (c4.ml_learning_period_days * 86400 ≤ now - fe)
       | none => false)) = true) :
    c4.enable_ml = true ∧ c4.ml_analyzer.is_trained = true ∧
      ∃ fe, c4.ml_analyzer.first_event_time = some fe ∧
        c4.ml_learning_period_days * 86400 ≤ now - fe := by
  simp only [Bool.and_eq_true] at h
  obtain ⟨⟨h1, h2⟩, h3⟩ := h
  refine ⟨h1, h2, ?_⟩
  cases hfe : c4.ml_analyzer.first_event_time with
  | none =>
      rw [hfe] at h3
      cases h3
  | some fe =>
      rw [hfe] at h3
      exact ⟨fe, rfl, of_decide_eq_true h3⟩

/-- Claim C3: an ML-anomaly notification is dispatched by the tick only
when, at that tick, the model is trained (River model present and
`samples_processed >= MIN_SAMPLES_FOR_ML = 100`) AND the ML learning
period has elapsed since the first recorded event
(`ml_learning_period_days * 86400 <= now - first_event_time`); whenever
that conjunction fails on the tick's resulting state — whose ML engine is
exactly the one the gates were read from — no `notifyML` call appears in
the trace, regardless of how many ML anomalies were detected. -/
theorem C3_ml_notification_gate (s : SqrtFn)
    (score : List Features → Features → ℚ) (logF : ℕ → ℚ)
    (c : Coordinator) (now : Timestamp) (c' : Coordinator) (d : TickData)
    (tr : List ExtCall)
    (htick : Coordinator.tick s score logF c now = some (c', d, tr))
    (hgate : ¬(c'.ml_analyzer.is_trained = true ∧
      ∃ fe, c'.ml_analyzer.first_event_time = some fe ∧
        c'.ml_learning_period_days * 86400 ≤ now - fe)) :
    ∀ n, ExtCall.notifyML n ∉ tr := by
  intro n hmem
  unfold Coordinator.tick at htick
  dsimp only at htick
  rw [Option.bind_eq_some] at htick
  obtain ⟨q, hq, hbody⟩ := htick
  rw [Option.bind_eq_some] at hbody
  obtain ⟨pn, hpn, hdata⟩ := hbody
  obtain ⟨hc', himp⟩ :=
    tickData_spec s logF pn.1 now q.2.1 q.2.2.1 pn.2 c' d tr hdata
  subst hc'
  have hinpn : ExtCall.notifyML n ∈ pn.2 := himp n hmem
  split at hpn
  · obtain ⟨hm, he, hl, hmc⟩ :=
      notifyPhase_spec s q.1 now q.2.1 q.2.2.1 q.2.2.2.1 q.2.2.2.2 pn hpn
    have hmctrue := hmc n hinpn
    rw [anomalyPhase_mlComplete s score logF c now q hq] at hmctrue
    obtain ⟨h1, h2, fe, hfe, hge⟩ := mlComplete_spec q.1 now hmctrue
    exact hgate ⟨hm ▸ h2, fe, hm ▸ hfe, hl ▸ hge⟩
  · cases hpn
    simp at hinpn

/-- Concrete stand-ins for the external River scorer and the log1p count
factor (no claim depends on their values). -/
def c3score : List Features → Features → ℚ := fun _ _ => 0

def c3log : ℕ → ℚ := fun _ => 0

/-- A freshly configured coordinator: empty Pattern Store, untrained ML
engine, notifications off. -/
def c3Coord : Coordinator :=
  { analyzer := PatternAnalyzer.new 2 7
    ml_analyzer := MLState.new false (1/20) 300
    recent_anomalies := []
    recent_ml_anomalies := []
    recent_events := []
    last_welfare_status := none
    last_notification_time := none
    last_notification_type := none
    holiday_mode := false
    snooze_until := none
    enable_ml := false
    enable_notifications := false
    track_attributes := false
    monitored_entities := ["sensor.a"]
    notify_services := []
    retrain_period_days := 30
    ml_learning_period_days := 14
    cross_sensor_window := 300 }

/-- Witness for C3 at a concrete input: the fresh coordinator's tick
succeeds, its gate fails (the model is untrained), and no ML notification
appears in the trace. -/
theorem C3_ml_notification_gate_witness :
    (¬(c3Coord.ml_analyzer.is_trained = true ∧
        ∃ fe, c3Coord.ml_analyzer.first_event_time = some fe ∧
          c3Coord.ml_learning_period_days * 86400 ≤ 1000 - fe)) ∧
    ∃ d tr, Coordinator.tick sqrtStub c3score c3log c3Coord 1000
        = some (c3Coord, d, tr) ∧ ∀ n, ExtCall.notifyML n ∉ tr := by
  have hgate : ¬(c3Coord.ml_analyzer.is_trained = true ∧
      ∃ fe, c3Coord.ml_analyzer.first_event_time = some fe ∧
        c3Coord.ml_learning_period_days * 86400 ≤ 1000 - fe) := by
    rintro ⟨htr, -⟩
    exact absurd htr (by decide)
  have hr : ∃ d tr, Coordinator.tick sqrtStub c3score c3log c3Coord 1000
      = some (c3Coord, d, tr) := ⟨_, _, rfl⟩
  obtain ⟨d, tr, htick⟩ := hr
  exact ⟨hgate, d, tr, htick,
    C3_ml_notification_gate sqrtStub c3score c3log c3Coord 1000 c3Coord d tr
      htick hgate⟩

/-! ## C2: totality of the periodic tick -/

theorem mapM_option_mem_rev {α β : Type} (f : α → Option β) (l : List α)
    (ys : List β) (h : l.mapM f = some ys) (y : β) (hy : y ∈ ys) :
    ∃ x ∈ l, f x = some y := by
  induction l generalizing ys with
  | nil =>
      have h2 : (some [] : Option (List β)) = some ys := h
      cases h2
      cases hy
  | cons a rest ih =>
      rw [List.mapM_cons] at h
      cases hfa : f a with
      | none =>
          rw [hfa] at h
          exact Option.noConfusion h
      | some b =>
          rw [hfa] at h
          cases hrest : rest.mapM f with
          | none =>
              rw [hrest] at h
              exact Option.noConfusion h
          | some bs =>
              rw [hrest] at h
              have h2 : some (b :: bs) = some ys := h
              cases h2
              rcases List.mem_cons.mp hy with he | hm
              · exact ⟨a, List.mem_cons_self _ _, he ▸ hfa⟩
              · obtain ⟨x, hx, hfx⟩ := ih bs hrest hm
                exact ⟨x, List.mem_cons_of_mem _ hx, hfx⟩

/-- On a well-formed pattern the bucket lookup never raises. -/
theorem getBucket?_isSome (p : EntityPattern) (hwf : p.WF) (t : Timestamp) :
    (p.getBucket? t).isSome := by
  unfold EntityPattern.getBucket?
  have hkmem : weekdayOf t ∈ p.day_buckets.map Prod.fst := by
    rw [hwf.1]
    have h0 := weekdayOf_nonneg t
    have h7 := weekdayOf_lt_seven t
    simp only [List.mem_cons, List.not_mem_nil, or_false]
    omega
  cases hlk : alookup p.day_buckets (weekdayOf t) with
  | none => exact absurd ((alookup_eq_none_iff _ _).mp hlk) (by simp [hkmem])
  | some l =>
      have hlen : l.length = 96 := hwf.2 _ (mem_of_alookup_eq_some hlk)
      have hi : (intervalIndex t).toNat < l.length := by
        have h1 := intervalIndex_nonneg t
        have h2 := intervalIndex_lt_96 t
        omega
      simp [List.getElem?_eq_getElem hi]

theorem get_expected_activity_isSome (s : SqrtFn) (p : EntityPattern)
    (hwf : p.WF) (t : Timestamp) :
    (p.get_expected_activity s t).isSome := by
  unfold EntityPattern.get_expected_activity
  rw [Option.isSome_map']
  exact getBucket?_isSome p hwf t

theorem check_for_anomalies_isSome (s : SqrtFn) (a : PatternAnalyzer)
    (now : Timestamp) (cia? : Option (Dict String ℕ))
    (hwf : ∀ pr ∈ a.patterns, (pr : String × EntityPattern).2.WF) :
    (a.check_for_anomalies s now cia?).isSome := by
  unfold PatternAnalyzer.check_for_anomalies
  split
  · rw [Option.isSome_map']
    apply mapM_option_isSome
    intro pr hpr
    unfold checkEntityAnomaly
    rw [Option.isSome_map']
    exact get_expected_activity_isSome s pr.2 (hwf pr hpr) now
  · rfl

/-- Every anomaly reported by `check_for_anomalies` carries a severity
drawn from `severity_order`. -/
theorem check_for_anomalies_severity (s : SqrtFn) (a : PatternAnalyzer)
    (now : Timestamp) (cia? : Option (Dict String ℕ))
    (l : List AnomalyResult)
    (h : a.check_for_anomalies s now cia? = some l) :
    ∀ r ∈ l, (listIndex? severityOrder r.severity).isSome := by
  intro r hr
  unfold PatternAnalyzer.check_for_anomalies at h
  split at h
  · rw [Option.map_eq_some'] at h
    obtain ⟨opts, hopts, hl⟩ := h
    subst hl
    rw [List.mem_filterMap] at hr
    obtain ⟨o, ho, hid⟩ := hr
    obtain ⟨pr, hpr, hfpr⟩ := mapM_option_mem_rev _ _ _ hopts o ho
    unfold checkEntityAnomaly at hfpr
    rw [Option.map_eq_some'] at hfpr
    obtain ⟨ms, hms, ho2⟩ := hfpr
    subst ho2
    unfold anomalyDecision at hid
    split at hid
    · exact Option.noConfusion hid
    · split at hid <;> dsimp only [id] at hid <;> split at hid <;>
        first
        | exact Option.noConfusion hid
        | (have hr2 := Option.some.inj hid
           subst hr2
           exact listIndex?_getSeverity _)
  · have h2 := Option.some.inj h
    subst h2
    cases hr

theorem get_entity_status_isSome (s : SqrtFn) (a : PatternAnalyzer)
    (now : Timestamp)
    (hwf : ∀ pr ∈ a.patterns, (pr : String × EntityPattern).2.WF) :
    (a.get_entity_status s now).isSome := by
  unfold PatternAnalyzer.get_entity_status
  rw [Option.isSome_map']
  apply mapM_option_isSome
  intro pr hpr
  unfold entityStatusOf
  rw [Option.isSome_map']
  exact get_expected_activity_isSome s pr.2 (hwf pr hpr) now

theorem get_typical_interval_isSome (a : PatternAnalyzer) (now : Timestamp)
    (hwf : ∀ pr ∈ a.patterns, (pr : String × EntityPattern).2.WF) :
    (a.get_typical_interval now none).isSome := by
  unfold PatternAnalyzer.get_typical_interval
  dsimp only
  split
  · rfl
  · rw [Option.isSome_map']
    apply mapM_option_isSome
    intro p hp
    obtain ⟨pr, hpr, hsnd⟩ := List.mem_map.mp hp
    have hpwf : p.WF := hsnd ▸ hwf pr hpr
    have hkmem : weekdayOf now ∈ p.day_buckets.map Prod.fst := by
      rw [hpwf.1]
      have h0 := weekdayOf_nonneg now
      have h7 := weekdayOf_lt_seven now
      simp only [List.mem_cons, List.not_mem_nil, or_false]
      omega
    cases hlk : alookup p.day_buckets (weekdayOf now) with
    | none => exact absurd ((alookup_eq_none_iff _ _).mp hlk) (by simp [hkmem])
    | some lb => simp

theorem isSome_bind_of {α β : Type} (x : Option α) (f : α → Option β)
    (hx : x.isSome) (hf : ∀ a, x = some a → (f a).isSome) :
    (x.bind f).isSome := by
  cases x with
  | none => cases hx
  | some a => exact hf a rfl

theorem get_time_since_activity_context_isSome (a : PatternAnalyzer)
    (now : Timestamp)
    (hwf : ∀ pr ∈ a.patterns, (pr : String × EntityPattern).2.WF) :
    (a.get_time_since_activity_context now).isSome := by
  unfold PatternAnalyzer.get_time_since_activity_context
  split
  · rfl
  · rw [Option.isSome_map']
    exact get_typical_interval_isSome a now hwf

theorem get_routine_progress_isSome (a : PatternAnalyzer) (now : Timestamp)
    (hwf : ∀ pr ∈ a.patterns, (pr : String × EntityPattern).2.WF) :
    (a.get_routine_progress now).isSome := by
  unfold PatternAnalyzer.get_routine_progress
  dsimp only
  apply isSome_bind_of
  · apply mapM_option_isSome
    intro pr hpr
    have hpwf := hwf pr hpr
    have hkmem : weekdayOf now ∈ pr.2.day_buckets.map Prod.fst := by
      rw [hpwf.1]
      have h0 := weekdayOf_nonneg now
      have h7 := weekdayOf_lt_seven now
      simp only [List.mem_cons, List.not_mem_nil, or_false]
      omega
    cases hlk : alookup pr.2.day_buckets (weekdayOf now) with
    | none => exact absurd ((alookup_eq_none_iff _ _).mp hlk) (by simp [hkmem])
    | some lb =>
        have hlen : lb.length = 96 := hpwf.2 _ (mem_of_alookup_eq_some hlk)
        have hci : (intervalIndex now).toNat + 1 ≤ lb.length := by
          have h1 := intervalIndex_nonneg now
          have h2 := intervalIndex_lt_96 now
          omega
        simp [hci]
  · intro partials hpartials
    rw [Option.isSome_map']
    apply mapM_option_isSome
    intro pr hpr
    have hpwf := hwf pr hpr
    have hkmem : weekdayOf now ∈ pr.2.day_buckets.map Prod.fst := by
      rw [hpwf.1]
      have h0 := weekdayOf_nonneg now
      have h7 := weekdayOf_lt_seven now
      simp only [List.mem_cons, List.not_mem_nil, or_false]
      omega
    cases hlk : alookup pr.2.day_buckets (weekdayOf now) with
    | none => exact absurd ((alookup_eq_none_iff _ _).mp hlk) (by simp [hkmem])
    | some lb => simp

theorem get_welfare_status_isSome (s : SqrtFn) (a : PatternAnalyzer)
    (now : Timestamp)
    (hwf : ∀ pr ∈ a.patterns, (pr : String × EntityPattern).2.WF) :
    (a.get_welfare_status s now).isSome := by
  unfold PatternAnalyzer.get_welfare_status
  apply isSome_bind_of
  · exact get_time_since_activity_context_isSome a now hwf
  · intro ac hac
    apply isSome_bind_of
    · exact get_routine_progress_isSome a now hwf
    · intro rp hrp
      rw [Option.isSome_map']
      exact get_entity_status_isSome s a now hwf

theorem calculate_activity_score_isSome (s : SqrtFn) (a : PatternAnalyzer)
    (now : Timestamp)
    (hwf : ∀ pr ∈ a.patterns, (pr : String × EntityPattern).2.WF) :
    (a.calculate_activity_score s now).isSome := by
  unfold PatternAnalyzer.calculate_activity_score
  split
  · rfl
  · rw [Option.isSome_map']
    apply mapM_option_isSome
    intro pr hpr
    rw [Option.isSome_map']
    exact get_expected_activity_isSome s pr.2 (hwf pr hpr) now

/-- The `highest_severity` fold never raises as long as the accumulator and
every incoming severity are known to `severity_order`. -/
theorem foldlM_severity_isSome (l : List AnomalyResult) :
    ∀ acc : String, (∀ r ∈ l, (listIndex? severityOrder r.severity).isSome) →
      (listIndex? severityOrder acc).isSome →
      (l.foldlM
        (fun (highest : String) a =>
          (listIndex? severityOrder a.severity).bind
            (fun ia =>
              (listIndex? severityOrder highest).map
                (fun ih => if ia < ih then a.severity else highest)))
        acc).isSome := by
  induction l with
  | nil =>
      intro acc hl hacc
      rfl
  | cons a rest ih =>
      intro acc hl hacc
      rw [List.foldlM_cons]
      obtain ⟨ia, hia⟩ := Option.isSome_iff_exists.mp
        (hl a (List.mem_cons_self _ _))
      obtain ⟨ihx, hihx⟩ := Option.isSome_iff_exists.mp hacc
      have hacc2 : (listIndex? severityOrder
          (if ia < ihx then a.severity else acc)).isSome := by
        split
        · rw [hia]
          rfl
        · rw [hihx]
          rfl
      have hrest := ih (if ia < ihx then a.severity else acc)
        (fun r hr => hl r (List.mem_cons_of_mem _ hr)) hacc2
      simp only [hia, hihx]
      simpa using hrest
  
theorem maxSeverity?_isSome (anoms : List AnomalyResult)
    (h : ∀ r ∈ anoms, (listIndex? severityOrder r.severity).isSome) :
    (maxSeverity? anoms).isSome := by
  unfold maxSeverity?
  exact foldlM_severity_isSome anoms "normal" h (by decide)

theorem send_notification_isSome (c : Coordinator) (now : Timestamp)
    (anoms : List AnomalyResult)
    (h : ∀ r ∈ anoms, (listIndex? severityOrder r.severity).isSome) :
    (c.send_notification now anoms).isSome := by
  unfold Coordinator.send_notification
  split
  · rfl
  · rw [Option.isSome_map']
    exact maxSeverity?_isSome anoms h

theorem send_notification_analyzer (c : Coordinator) (now : Timestamp)
    (anoms : List AnomalyResult) (p : Coordinator × List ExtCall)
    (h : c.send_notification now anoms = some p) :
    p.1.analyzer = c.analyzer := by
  unfold Coordinator.send_notification at h
  split at h
  · cases h
    rfl
  · rw [Option.map_eq_some'] at h
    obtain ⟨hi, hhi, hp⟩ := h
    subst hp
    rfl

theorem send_ml_notification_analyzer (c : Coordinator) (now : Timestamp)
    (anoms : List MLAnomalyResult) :
    ((c.send_ml_notification now anoms).1).analyzer = c.analyzer := by
  unfold Coordinator.send_ml_notification
  split
  · rfl
  · rfl

theorem send_welfare_notification_isSome (s : SqrtFn) (c : Coordinator)
    (now : Timestamp) (w : WelfareStatus)
    (hwf : ∀ pr ∈ c.analyzer.patterns, (pr : String × EntityPattern).2.WF) :
    (c.send_welfare_notification s now w).isSome := by
  unfold Coordinator.send_welfare_notification
  split
  · rfl
  · rw [Option.isSome_map']
    exact get_entity_status_isSome s c.analyzer now hwf

theorem send_welfare_notification_analyzer (s : SqrtFn) (c : Coordinator)
    (now : Timestamp) (w : WelfareStatus) (p : Coordinator × List ExtCall)
    (h : c.send_welfare_notification s now w = some p) :
    p.1.analyzer = c.analyzer := by
  unfold Coordinator.send_welfare_notification at h
  split at h
  · cases h
    rfl
  · rw [Option.map_eq_some'] at h
    obtain ⟨st, hst, hp⟩ := h
    subst hp
    rfl

theorem check_retrain_analyzer (c : Coordinator) (now : Timestamp) :
    (c.check_retrain now).analyzer = c.analyzer := by
  unfold Coordinator.check_retrain
  split
  · rfl
  · split
    · split
      · rfl
      · rfl
    · split
      · rfl
      · rfl

/-- With a well-formed Pattern Store and recognised severities, the
notification block never raises, and it returns a coordinator with the
same Pattern Store. -/
theorem notifyPhase_total (s : SqrtFn) (c4 : Coordinator) (now : Timestamp)
    (sa : List AnomalyResult) (ma : List MLAnomalyResult) (sc mc : Bool)
    (hwf : ∀ pr ∈ c4.analyzer.patterns, (pr : String × EntityPattern).2.WF)
    (hsev : ∀ r ∈ sa, (listIndex? severityOrder r.severity).isSome) :
    ∃ pn, Coordinator.notifyPhase s c4 now sa ma sc mc = some pn ∧
      pn.1.analyzer = c4.analyzer := by
  unfold Coordinator.notifyPhase
  have hp1 : ∃ p1, (if sc && decide (sa ≠ []) then c4.send_notification now sa
      else some (c4, [])) = some p1 ∧ p1.1.analyzer = c4.analyzer := by
    split
    · obtain ⟨p1, hp1⟩ := Option.isSome_iff_exists.mp
        (send_notification_isSome c4 now sa hsev)
      exact ⟨p1, hp1, send_notification_analyzer c4 now sa p1 hp1⟩
    · exact ⟨(c4, []), rfl, rfl⟩
  obtain ⟨p1, hp1, hp1a⟩ := hp1
  rw [hp1]
  have hp2a : ((if mc && decide (ma ≠ []) then p1.1.send_ml_notification now ma
      else (p1.1, [])) : Coordinator × List ExtCall).1.analyzer
      = c4.analyzer := by
    split
    · rw [send_ml_notification_analyzer]
      exact hp1a
    · exact hp1a
  show ∃ pn, ((some p1).bind
    (fun p1 =>
      let p2 :=
        if mc && decide (ma ≠ []) then p1.1.send_ml_notification now ma
        else (p1.1, [])
      if sc || mc then
        (p2.1.analyzer.get_welfare_status s now).bind
          (fun w =>
            if some w.status ≠ p2.1.last_welfare_status then
              (p2.1.send_welfare_notification s now w).map
                (fun p3 =>
                  ({ p3.1 with last_welfare_status := some w.status },
                   p1.2 ++ p2.2 ++ p3.2))
            else some (p2.1, p1.2 ++ p2.2))
      else some (p2.1, p1.2 ++ p2.2))) = some pn ∧
    pn.1.analyzer = c4.analyzer
  rw [Option.some_bind]
  dsimp only
  generalize hp2 : (if (mc && decide (ma ≠ [])) = true
      then p1.1.send_ml_notification now ma else (p1.1, [])) = p2
  rw [hp2] at hp2a
  split
  · rw [hp2a]
    obtain ⟨w, hw⟩ := Option.isSome_iff_exists.mp
      (get_welfare_status_isSome s c4.analyzer now hwf)
    rw [hw, Option.some_bind]
    split
    · obtain ⟨p3, hp3⟩ := Option.isSome_iff_exists.mp
        (send_welfare_notification_isSome s p2.1 now w
          (by rw [hp2a]; exact hwf))
      rw [hp3, Option.map_some']
      refine ⟨_, rfl, ?_⟩
      rw [show ({ p3.1 with last_welfare_status := some w.status } :
        Coordinator).analyzer = p3.1.analyzer from rfl]
      rw [send_welfare_notification_analyzer s p2.1 now w p3 hp3]
      exact hp2a
    · exact ⟨_, rfl, hp2a⟩
  · exact ⟨_, rfl, hp2a⟩

/-- With a well-formed Pattern Store, the anomaly/retrain phase never
raises; its working coordinator keeps the same Pattern Store and all
reported severities are recognised. -/
theorem anomalyPhase_total (s : SqrtFn)
    (score : List Features → Features → ℚ) (logF : ℕ → ℚ)
    (c : Coordinator) (now : Timestamp)
    (hwf : ∀ pr ∈ c.analyzer.patterns, (pr : String × EntityPattern).2.WF) :
    ∃ q, Coordinator.anomalyPhase s score logF c now = some q ∧
      q.1.analyzer = c.analyzer ∧
      ∀ r ∈ q.2.1, (listIndex? severityOrder r.severity).isSome := by
  unfold Coordinator.anomalyPhase
  dsimp only
  have hsa : ∃ sa, (if (c.holiday_mode || c.is_snoozed now) = true then some []
      else c.analyzer.check_for_anomalies s now none) = some sa ∧
      ∀ r ∈ sa, (listIndex? severityOrder r.severity).isSome := by
    split
    · exact ⟨[], rfl, by simp⟩
    · obtain ⟨sa, hsa⟩ := Option.isSome_iff_exists.mp
        (check_for_anomalies_isSome s c.analyzer now none hwf)
      exact ⟨sa, hsa, check_for_anomalies_severity s c.analyzer now none sa hsa⟩
  obtain ⟨sa, hsa, hsev⟩ := hsa
  rw [hsa, Option.some_bind]
  refine ⟨_, rfl, ?_, hsev⟩
  dsimp only
  repeat' split
  all_goals simp [check_retrain_analyzer]

/-- With a well-formed Pattern Store, the persist-and-report tail always
succeeds: it returns its coordinator unchanged, appends the persistence
calls (the ML snapshot exactly when ML is enabled), and fills the data
dictionary with freshly recomputed elder-care metrics. -/
theorem tickData_total (s : SqrtFn) (logF : ℕ → ℚ) (c7 : Coordinator)
    (now : Timestamp) (sa : List AnomalyResult) (ma : List MLAnomalyResult)
    (prevTr : List ExtCall)
    (hwf : ∀ pr ∈ c7.analyzer.patterns, (pr : String × EntityPattern).2.WF) :
    ∃ d : TickData,
      Coordinator.tickData s logF c7 now sa ma prevTr
        = some (c7, d,
          prevTr ++ (ExtCall.saveStat c7.save_data_doc ::
            (if c7.enable_ml = true then [ExtCall.saveML c7.ml_analyzer.to_dict]
             else []))) ∧
      c7.analyzer.get_welfare_status s now = some d.welfare ∧
      c7.analyzer.get_routine_progress now = some d.routine ∧
      c7.analyzer.get_time_since_activity_context now = some d.activity_context ∧
      c7.analyzer.get_entity_status s now = some d.entity_status := by
  obtain ⟨asc, hasc⟩ := Option.isSome_iff_exists.mp
    (calculate_activity_score_isSome s c7.analyzer now hwf)
  obtain ⟨w2, hw2⟩ := Option.isSome_iff_exists.mp
    (get_welfare_status_isSome s c7.analyzer now hwf)
  obtain ⟨rp, hrp⟩ := Option.isSome_iff_exists.mp
    (get_routine_progress_isSome c7.analyzer now hwf)
  obtain ⟨ac, hac⟩ := Option.isSome_iff_exists.mp
    (get_time_since_activity_context_isSome c7.analyzer now hwf)
  obtain ⟨es, hes⟩ := Option.isSome_iff_exists.mp
    (get_entity_status_isSome s c7.analyzer now hwf)
  refine ⟨{ last_activity := c7.analyzer.get_last_activity_time
            activity_score := asc
            anomaly_detected := decide (sa ≠ [] ∨ ma ≠ [])
            confidence := c7.analyzer.get_confidence now
            daily_count := c7.analyzer.get_total_daily_count now
            stat_anomalies := sa
            ml_anomalies := ma
            ml_enabled := c7.enable_ml
            ml_trained :=
              if c7.enable_ml then c7.ml_analyzer.is_trained else false
            ml_sample_count :=
              if c7.enable_ml then c7.ml_analyzer.samples_processed else 0
            ml_last_trained :=
              if c7.enable_ml then c7.ml_analyzer.last_trained else none
            cross_sensor_patterns :=
              if c7.enable_ml then
                c7.ml_analyzer.get_strong_patterns logF (3/10)
              else []
            stat_training := c7.analyzer.get_training_time_remaining now
            ml_training :=
              if c7.enable_ml then
                some (c7.ml_analyzer.get_training_time_remaining
                  c7.ml_learning_period_days now)
              else none
            welfare := w2
            routine := rp
            activity_context := ac
            entity_status := es
            last_notification_time := c7.last_notification_time
            last_notification_type := c7.last_notification_type
            holiday_mode := c7.holiday_mode
            snooze_active := c7.is_snoozed now
            snooze_until := c7.snooze_until }, ?_, hw2, hrp, hac, hes⟩
  unfold Coordinator.tickData
  dsimp only
  rw [hasc, Option.some_bind, hw2, Option.some_bind, hrp, Option.some_bind,
    hac, Option.some_bind, hes, Option.map_some']

/-- Claim C2: with a well-formed Pattern Store — true of every state the
integration reaches or restores from its own snapshots — the periodic
update never raises, in every mode (holiday, snoozed or active, ML on or
off, notifications on or off): it returns a data dictionary whose welfare
status, routine progress, activity context and entity status are freshly
recomputed from the resulting state, and its trace persists the full
statistical snapshot, plus the ML snapshot exactly when ML is enabled. -/
theorem C2_tick_total (s : SqrtFn)
    (score : List Features → Features → ℚ) (logF : ℕ → ℚ)
    (c : Coordinator) (now : Timestamp)
    (hwf : ∀ pr ∈ c.analyzer.patterns, (pr : String × EntityPattern).2.WF) :
    ∃ c' d tr, Coordinator.tick s score logF c now = some (c', d, tr) ∧
      c'.analyzer.get_welfare_status s now = some d.welfare ∧
      c'.analyzer.get_routine_progress now = some d.routine ∧
      c'.analyzer.get_time_since_activity_context now
        = some d.activity_context ∧
      c'.analyzer.get_entity_status s now = some d.entity_status ∧
      ExtCall.saveStat c'.save_data_doc ∈ tr ∧
      (c'.enable_ml = true → ExtCall.saveML c'.ml_analyzer.to_dict ∈ tr) := by
  obtain ⟨q, hq, hqa, hsev⟩ := anomalyPhase_total s score logF c now hwf
  have hpnE : ∃ pn, (if (q.1.enable_notifications
        && !(c.holiday_mode || c.is_snoozed now)) = true then
      Coordinator.notifyPhase s q.1 now q.2.1 q.2.2.1 q.2.2.2.1 q.2.2.2.2
     else some (q.1, [])) = some pn ∧ pn.1.analyzer = c.analyzer := by
    split
    · obtain ⟨pn, hpn, hpa⟩ := notifyPhase_total s q.1 now q.2.1 q.2.2.1
        q.2.2.2.1 q.2.2.2.2 (by rw [hqa]; exact hwf) hsev
      exact ⟨pn, hpn, hpa.trans hqa⟩
    · exact ⟨(q.1, []), rfl, hqa⟩
  obtain ⟨pn, hpn, hpa⟩ := hpnE
  obtain ⟨d, htd, hw, hrp, hac, hes⟩ := tickData_total s logF pn.1 now
    q.2.1 q.2.2.1 pn.2 (by rw [hpa]; exact hwf)
  refine ⟨pn.1, d,
    pn.2 ++ (ExtCall.saveStat pn.1.save_data_doc ::
      (if pn.1.enable_ml = true then [ExtCall.saveML pn.1.ml_analyzer.to_dict]
       else [])), ?_, hw, hrp, hac, hes, ?_, ?_⟩
  · unfold Coordinator.tick
    dsimp only
    rw [hq, Option.some_bind, hpn, Option.some_bind]
    exact htd
  · exact List.mem_append.mpr (Or.inr (List.mem_cons_self _ _))
  · intro hml
    refine List.mem_append.mpr (Or.inr (List.mem_cons_of_mem _ ?_))
    rw [if_pos hml]
    simp

/-- A coordinator in active mode with one monitored entity's (fresh,
well-formed) pattern, notifications and ML enabled. -/
def c2Coord : Coordinator :=
  { analyzer := { PatternAnalyzer.new 2 7 with
      patterns := [("sensor.a", EntityPattern.new "sensor.a")] }
    ml_analyzer := MLState.new true (1/20) 300
    recent_anomalies := []
    recent_ml_anomalies := []
    recent_events := []
    last_welfare_status := none
    last_notification_time := none
    last_notification_type := none
    holiday_mode := false
    snooze_until := none
    enable_ml := true
    enable_notifications := true
    track_attributes := false
    monitored_entities := ["sensor.a"]
    notify_services := ["notify.mobile_app"]
    retrain_period_days := 30
    ml_learning_period_days := 14
    cross_sensor_window := 300 }

/-- Witness for C2 at a concrete input: the well-formedness hypothesis
holds for the concrete coordinator and its tick succeeds with recomputed
metrics and persisted snapshots. -/
theorem C2_tick_total_witness :
    (∀ pr ∈ c2Coord.analyzer.patterns,
      (pr : String × EntityPattern).2.WF) ∧
    ∃ c' d tr, Coordinator.tick sqrtStub (fun _ _ => 0) (fun _ => 0)
        c2Coord 86400 = some (c', d, tr) ∧
      c'.analyzer.get_welfare_status sqrtStub 86400 = some d.welfare ∧
      c'.analyzer.get_routine_progress 86400 = some d.routine ∧
      c'.analyzer.get_time_since_activity_context 86400
        = some d.activity_context ∧
      c'.analyzer.get_entity_status sqrtStub 86400 = some d.entity_status ∧
      ExtCall.saveStat c'.save_data_doc ∈ tr ∧
      (c'.enable_ml = true → ExtCall.saveML c'.ml_analyzer.to_dict ∈ tr) := by
  have hwf : ∀ pr ∈ c2Coord.analyzer.patterns,
      (pr : String × EntityPattern).2.WF := by decide
  exact ⟨hwf, C2_tick_total sqrtStub (fun _ _ => 0) (fun _ => 0)
    c2Coord 86400 hwf⟩
